import Mathlib

/-!
# Verification of the `SCurve` jerk-limited trajectory generator

Shallow embedding of `libraries/AP_Math/SCurve.cpp` (ArduPilot S-curve
trajectory generator).  Floating-point (`float`) scalars are idealised as
real numbers; the AP_Math float-tolerance helpers `is_zero`, `is_equal`,
`is_positive`, `is_negative` are idealised as exact comparisons
(`= 0`, `=`, `0 <`, `< 0`), `safe_sqrt` as `Real.sqrt` (which, like
`safe_sqrt`, returns 0 on negative input), `MIN`/`MAX` as `min`/`max`,
`fabsf` as `|·|`, and `powf x y` as `x ^ y` (`Real.rpow` for the one
fractional exponent that occurs).

The 23-entry `segment[]` array is modelled as a total store `ℕ → Segment`
so that "never writes outside the table" is a provable property rather
than a typing artifact.  The C++ build cursor (a `uint8_t&` incremented by
`add_segment`) is threaded explicitly as the second component of a
`(store, index)` pair.
-/

noncomputable section

namespace SCurve

open Real

/-- `sq` from AP_Math: square of a scalar. -/
def sq (x : ℝ) : ℝ := x * x

/-- `Vector3f`. -/
structure Vec3 where
  x : ℝ
  y : ℝ
  z : ℝ

namespace Vec3

/-- Componentwise subtraction (`operator-`). -/
def sub (a b : Vec3) : Vec3 := ⟨a.x - b.x, a.y - b.y, a.z - b.z⟩

/-- Componentwise addition (`operator+`). -/
def add (a b : Vec3) : Vec3 := ⟨a.x + b.x, a.y + b.y, a.z + b.z⟩

/-- Scalar multiple (`operator*`). -/
def smul (a : Vec3) (k : ℝ) : Vec3 := ⟨a.x * k, a.y * k, a.z * k⟩

/-- `Vector3f::zero`. -/
def zero : Vec3 := ⟨0, 0, 0⟩

/-- Negation. -/
def neg (a : Vec3) : Vec3 := ⟨-a.x, -a.y, -a.z⟩

/-- `length_squared`. -/
def length_squared (a : Vec3) : ℝ := a.x * a.x + a.y * a.y + a.z * a.z

/-- `Vector3f::length`. -/
def length (a : Vec3) : ℝ := Real.sqrt a.length_squared

/-- `Vector3f::normalized` (vector divided by its length). -/
def normalized (a : Vec3) : Vec3 := a.smul (1 / a.length)

end Vec3

/-- `Vector2f(x, y).length()` for the horizontal-component checks. -/
def vec2_length (x y : ℝ) : ℝ := Real.sqrt (x * x + y * y)

/-- `SCurve::SegmentType`. -/
inductive SegmentType where
  | CONSTANT_JERK
  | POSITIVE_JERK
  | NEGATIVE_JERK
deriving DecidableEq

/-- One entry of the `segment[]` array: cumulative state at the end of the
segment. -/
structure Segment where
  seg_type : SegmentType
  jerk_ref : ℝ
  end_time : ℝ
  end_accel : ℝ
  end_vel : ℝ
  end_pos : ℝ

/-- The all-zero segment record. -/
def Segment.zero : Segment :=
  { seg_type := SegmentType.CONSTANT_JERK, jerk_ref := 0, end_time := 0,
    end_accel := 0, end_vel := 0, end_pos := 0 }

/-- Write one entry of the segment store. -/
def segWrite (store : ℕ → Segment) (i : ℕ) (s : Segment) : ℕ → Segment :=
  fun j => if j = i then s else store j

theorem segWrite_same (store : ℕ → Segment) (i : ℕ) (s : Segment) :
    segWrite store i s i = s := by simp [segWrite]

theorem segWrite_other (store : ℕ → Segment) (i j : ℕ) (s : Segment)
    (h : j ≠ i) : segWrite store i s j = store j := by simp [segWrite, h]

/-- A segment store together with the build cursor that `add_segment`
increments (the C++ `uint8_t &index`). -/
abbrev BuildSt := (ℕ → Segment) × ℕ

/-- `SCurve::add_segment`: populate the entry at the cursor and advance the
cursor. -/
def add_segment (b : BuildSt) (end_time : ℝ) (seg_type : SegmentType)
    (jerk_ref end_accel end_vel end_pos : ℝ) : BuildSt :=
  (segWrite b.1 b.2
    { seg_type := seg_type, jerk_ref := jerk_ref, end_time := end_time,
      end_accel := end_accel, end_vel := end_vel, end_pos := end_pos },
   b.2 + 1)

/-- `SCurve::add_segment_const_jerk`: closed-form integration of a constant
jerk `J0` over duration `tj` from the previous entry's end state. -/
def add_segment_const_jerk (b : BuildSt) (tj J0 : ℝ) : BuildSt :=
  let prev := b.1 (b.2 - 1)
  let J := J0
  let T := prev.end_time + tj
  let A := prev.end_accel + J0 * tj
  let V := prev.end_vel + prev.end_accel * tj + 0.5 * J0 * sq tj
  let P := prev.end_pos + prev.end_vel * tj + 0.5 * prev.end_accel * sq tj +
    (1 / 6) * J0 * tj ^ (3 : ℕ)
  add_segment b T SegmentType.CONSTANT_JERK J A V P

/-- `SCurve::add_segment_incr_jerk`: raised-cosine increasing-jerk segment of
duration `tj` and peak jerk `Jm`. -/
def add_segment_incr_jerk (b : BuildSt) (tj Jm : ℝ) : BuildSt :=
  let prev := b.1 (b.2 - 1)
  let Beta := Real.pi / tj
  let Alpha := Jm / 2
  let AT := Alpha * tj
  let VT := Alpha * (sq tj / 2 - 2 / sq Beta)
  let PT := Alpha * ((-1 / sq Beta) * tj + (1 / 6) * tj ^ (3 : ℕ))
  let J := Jm
  let T := prev.end_time + tj
  let A := prev.end_accel + AT
  let V := prev.end_vel + prev.end_accel * tj + VT
  let P := prev.end_pos + prev.end_vel * tj + 0.5 * prev.end_accel * sq tj + PT
  add_segment b T SegmentType.POSITIVE_JERK J A V P

/-- `SCurve::add_segment_decr_jerk`: raised-cosine decreasing-jerk segment of
duration `tj` and peak jerk `Jm`. -/
def add_segment_decr_jerk (b : BuildSt) (tj Jm : ℝ) : BuildSt :=
  let prev := b.1 (b.2 - 1)
  let Beta := Real.pi / tj
  let Alpha := Jm / 2
  let AT := Alpha * tj
  let VT := Alpha * (sq tj / 2 - 2 / sq Beta)
  let PT := Alpha * ((-1 / sq Beta) * tj + (1 / 6) * tj ^ (3 : ℕ))
  let A2T := Jm * tj
  let V2T := Jm * sq tj
  let P2T := Alpha * ((-1 / sq Beta) * 2 * tj + (4 / 3) * tj ^ (3 : ℕ))
  let J := Jm
  let T := prev.end_time + tj
  let A := (prev.end_accel - AT) + A2T
  let V := (prev.end_vel - VT) + (prev.end_accel - AT) * tj + V2T
  let P := (prev.end_pos - PT) + (prev.end_vel - VT) * tj +
    0.5 * (prev.end_accel - AT) * sq tj + P2T
  add_segment b T SegmentType.NEGATIVE_JERK J A V P

/-- `SCurve::add_segments_jerk`: increasing-jerk, constant-jerk plateau of
duration `Tcj`, then decreasing-jerk. -/
def add_segments_jerk (b : BuildSt) (tj Jm Tcj : ℝ) : BuildSt :=
  add_segment_decr_jerk (add_segment_const_jerk (add_segment_incr_jerk b tj Jm) Tcj Jm) tj Jm

/-- `SCurve::calc_javp_for_segment_const_jerk`: jerk/accel/vel/pos at offset
`time_now` into a constant-jerk segment. -/
def calc_javp_for_segment_const_jerk (time_now J0 A0 V0 P0 : ℝ) : ℝ × ℝ × ℝ × ℝ :=
  (J0,
   A0 + J0 * time_now,
   V0 + A0 * time_now + 0.5 * J0 * (time_now * time_now),
   P0 + V0 * time_now + 0.5 * A0 * (time_now * time_now) +
     (1 / 6) * J0 * (time_now * time_now * time_now))

/-- `SCurve::calc_javp_for_segment_incr_jerk`: jerk/accel/vel/pos at offset
`time_now` into a raised-cosine increasing-jerk segment of duration `tj`. -/
def calc_javp_for_segment_incr_jerk (time_now tj Jm A0 V0 P0 : ℝ) : ℝ × ℝ × ℝ × ℝ :=
  let Alpha := Jm / 2
  let Beta := Real.pi / tj
  (Alpha * (1 - Real.cos (Beta * time_now)),
   A0 + Alpha * time_now - (Alpha / Beta) * Real.sin (Beta * time_now),
   V0 + A0 * time_now + (Alpha / 2) * (time_now * time_now) +
     (Alpha / (Beta * Beta)) * Real.cos (Beta * time_now) - Alpha / (Beta * Beta),
   P0 + V0 * time_now + 0.5 * A0 * (time_now * time_now) +
     (-Alpha / (Beta * Beta)) * time_now + Alpha * (time_now * time_now * time_now) / 6 +
     (Alpha / (Beta * Beta * Beta)) * Real.sin (Beta * time_now))

/-- `SCurve::calc_javp_for_segment_decr_jerk`: jerk/accel/vel/pos at offset
`time_now` into a raised-cosine decreasing-jerk segment of duration `tj`. -/
def calc_javp_for_segment_decr_jerk (time_now tj Jm A0 V0 P0 : ℝ) : ℝ × ℝ × ℝ × ℝ :=
  let Alpha := Jm / 2
  let Beta := Real.pi / tj
  let AT := Alpha * tj
  let VT := Alpha * ((tj * tj) / 2 - 2 / (Beta * Beta))
  let PT := Alpha * ((-1 / (Beta * Beta)) * tj + (1 / 6) * (tj * tj * tj))
  (Alpha * (1 - Real.cos (Beta * (time_now + tj))),
   (A0 - AT) + Alpha * (time_now + tj) - (Alpha / Beta) * Real.sin (Beta * (time_now + tj)),
   (V0 - VT) + (A0 - AT) * time_now + 0.5 * Alpha * (time_now + tj) * (time_now + tj) +
     (Alpha / (Beta * Beta)) * Real.cos (Beta * (time_now + tj)) - Alpha / (Beta * Beta),
   (P0 - PT) + (V0 - VT) * time_now + 0.5 * (A0 - AT) * (time_now * time_now) +
     (-Alpha / (Beta * Beta)) * (time_now + tj) +
     (Alpha / 6) * (time_now + tj) * (time_now + tj) * (time_now + tj) +
     (Alpha / (Beta * Beta * Beta)) * Real.sin (Beta * (time_now + tj)))

/-- Result of `SCurve::calculate_path`.  `invalid` records whether the
`INTERNAL_ERROR(invalid_arguments)` diagnostic was raised. -/
structure PathOut where
  invalid : Bool
  Jm_out : ℝ
  t2_out : ℝ
  t4_out : ℝ
  t6_out : ℝ

/-- Discriminant under the square root of the constant-acceleration-plateau
duration formula in `calculate_path` (the expression appears verbatim twice
in the source, in solutions 2 and 7). -/
def t4_disc (tj Jm V0 Am L : ℝ) : ℝ :=
  (Am * Am * Am * Am) * (1 / 4) + (Jm * Jm) * (V0 * V0) +
    (Am * Am) * (Jm * Jm) * (tj * tj) * (1 / 4) + Am * (Jm * Jm) * L * 2 -
    (Am * Am) * Jm * V0 + (Am * Am * Am) * Jm * tj * (1 / 2) - Am * (Jm * Jm) * V0 * tj

/-- The plateau duration `t4` computed in solutions 2 and 7 of
`calculate_path`: the minimum of the velocity-limited duration and the
larger root of the distance equation. -/
def t4_quad (tj Jm V0 Vm Am L : ℝ) : ℝ :=
  min (-(V0 - Vm + Am * tj + (Am * Am) / Jm) / Am)
    (max
      (((Am * Am) * (-3 / 2) + Real.sqrt (t4_disc tj Jm V0 Am L) - Jm * V0 -
          Am * Jm * tj * (3 / 2)) / (Am * Jm))
      (((Am * Am) * (-3 / 2) - Real.sqrt (t4_disc tj Jm V0 Am L) - Jm * V0 -
          Am * Jm * tj * (3 / 2)) / (Am * Jm)))

/-- Cube-root subterm of the distance-limited acceleration in solution 5 of
`calculate_path` (`powf(..., 1/3)` over Cardano's formula). -/
def cbrt_sol5 (tj Jm V0 L : ℝ) : ℝ :=
  (Real.sqrt
      ((-(Jm * Jm) * L * (1 / 2) + (Jm * Jm * Jm) * (tj * tj * tj) * (8 / 27) -
          Jm * tj * ((Jm * Jm) * (tj * tj) + Jm * V0 * 2) * (1 / 3) +
          (Jm * Jm) * V0 * tj) ^ (2 : ℕ) -
        ((Jm * Jm) * (tj * tj) * (1 / 9) - Jm * V0 * (2 / 3)) ^ (3 : ℕ)) +
    (Jm * Jm) * L * (1 / 2) - (Jm * Jm * Jm) * (tj * tj * tj) * (8 / 27) +
    Jm * tj * ((Jm * Jm) * (tj * tj) + Jm * V0 * 2) * (1 / 3) -
    (Jm * Jm) * V0 * tj) ^ ((1 : ℝ) / 3)

/-- Re-clamped acceleration in solution 5 of `calculate_path`: the minimum of
the incoming clamp, the velocity-limited pure-ramp acceleration, and the
distance-limited pure-ramp acceleration (closed-form cubic root). -/
def am_sol5 (tj Jm V0 Vm L Am : ℝ) : ℝ :=
  min
    (min Am
      (max
        (Jm * (tj + Real.sqrt ((V0 * (-4) + Vm * 4 + Jm * (tj * tj)) / Jm)) * (-1 / 2))
        (Jm * (tj - Real.sqrt ((V0 * (-4) + Vm * 4 + Jm * (tj * tj)) / Jm)) * (-1 / 2))))
    (Jm * tj * (-2 / 3) +
      ((Jm * Jm) * (tj * tj) * (1 / 9) - Jm * V0 * (2 / 3)) * 1 / cbrt_sol5 tj Jm V0 L +
      cbrt_sol5 tj Jm V0 L)

/-- The first clamp of the acceleration in `calculate_path`: the caller's
limit, the velocity-reachable bound and the distance-reachable bound. -/
def am_clamp (tj V0 Vm L Am : ℝ) : ℝ :=
  min (min Am ((Vm - V0) / (2 * tj))) ((L + 4 * V0 * tj) / (4 * sq tj))

/-- `SCurve::calculate_path`: closed-form computation of the jerk magnitude
and the three ramp durations `(t2, t4, t6)`. -/
def calculate_path (tj Jm V0 Am Vm L : ℝ) : PathOut :=
  if ¬ (0 < tj) ∨ ¬ (0 < Jm) ∨ ¬ (0 < Am) ∨ ¬ (0 < Vm) ∨ ¬ (0 < L) then
    { invalid := true, Jm_out := 0, t2_out := 0, t4_out := 0, t6_out := 0 }
  else if V0 ≥ Vm then
    { invalid := false, Jm_out := 0, t2_out := 0, t4_out := 0, t6_out := 0 }
  else
    let Am1 := am_clamp tj V0 Vm L Am
    if |Am1| < Jm * tj then
      let Jm1 := Am1 / tj
      if (Vm ≤ V0 + 2 * Am1 * tj) ∨ (L ≤ 4 * V0 * tj + 4 * Am1 * sq tj) then
        { invalid := false, Jm_out := Jm1, t2_out := 0, t4_out := 0, t6_out := 0 }
      else
        { invalid := false, Jm_out := Jm1, t2_out := 0,
          t4_out := t4_quad tj Jm1 V0 Vm Am1 L, t6_out := 0 }
    else
      if (Vm < V0 + Am1 * tj + (Am1 * Am1) / Jm) ∨
          (L < 1 / (Jm * Jm) * (Am1 * Am1 * Am1 + Am1 * Jm * (V0 * 2 + Am1 * tj * 2)) +
            V0 * tj * 2 + Am1 * sq tj) then
        let Am2 := am_sol5 tj Jm V0 Vm L Am1
        { invalid := false, Jm_out := Jm, t2_out := Am2 / Jm - tj, t4_out := 0,
          t6_out := Am2 / Jm - tj }
      else
        { invalid := false, Jm_out := Jm, t2_out := Am1 / Jm - tj,
          t4_out := t4_quad tj Jm V0 Vm Am1 L, t6_out := Am1 / Jm - tj }

/-! ## The leg state and its queries -/

/-- Segment-index constants from the top of `SCurve.cpp`. -/
def SEG_INIT : ℕ := 0

def SEG_ACCEL_MAX : ℕ := 4

def SEG_ACCEL_END : ℕ := 7

def SEG_CHANGE_END : ℕ := 14

def SEG_CONST : ℕ := 15

def SEG_DECEL_END : ℕ := 22

/-- `segments_max` from `SCurve.h`: the canonical full segment count. -/
def segments_max : ℕ := 23

/-- One `SCurve` leg instance. -/
structure State where
  jerk_time : ℝ
  jerk_max : ℝ
  accel_max : ℝ
  vel_max : ℝ
  time : ℝ
  num_segs : ℕ
  segment : ℕ → Segment
  track : Vec3
  delta_unit : Vec3

/-- `SCurve::init`: clear the limits and the path, writing the all-zero
initial segment at index 0 (leaving `num_segs = 1`). -/
def init (s : State) : State :=
  { jerk_time := 0, jerk_max := 0, accel_max := 0, vel_max := 0, time := 0,
    num_segs := 1, segment := segWrite s.segment 0 Segment.zero,
    track := Vec3.zero, delta_unit := Vec3.zero }

/-- `SCurve::time_end`. -/
def time_end (s : State) : ℝ :=
  if s.num_segs ≠ segments_max then 0 else (s.segment SEG_DECEL_END).end_time

/-- `SCurve::finished`. -/
def finished (s : State) : Bool :=
  if s.num_segs ≠ segments_max then true else decide (time_end s < s.time)

/-- `SCurve::pos_end`. -/
def pos_end (s : State) : ℝ :=
  if s.num_segs ≠ segments_max then 0 else (s.segment SEG_DECEL_END).end_pos

/-- `SCurve::get_time_remaining`. -/
def get_time_remaining (s : State) : ℝ :=
  if s.num_segs ≠ segments_max then 0 else (s.segment SEG_DECEL_END).end_time - s.time

/-- `SCurve::get_accel_finished_time`. -/
def get_accel_finished_time (s : State) : ℝ :=
  if s.num_segs ≠ segments_max then 0 else (s.segment SEG_ACCEL_END).end_time

/-- `SCurve::braking`. -/
def braking (s : State) : Bool :=
  if s.num_segs ≠ segments_max then true
  else decide ((s.segment SEG_CONST).end_time ≤ s.time)

/-- The active-segment search loop at the top of `SCurve::update`: scan the
indices from the last segment downwards, retaining the lowest index whose
end time exceeds `time_now` (initial value: `num_segs`). -/
def find_pnt (s : State) (time_now : ℝ) : ℕ :=
  (List.range s.num_segs).foldl
    (fun pnt i =>
      if time_now < (s.segment (s.num_segs - 1 - i)).end_time then s.num_segs - 1 - i
      else pnt)
    s.num_segs

/-- `SCurve::update`: jerk, acceleration, velocity and position at time
`time_now` along the leg. -/
def update (s : State) (time_now : ℝ) : ℝ × ℝ × ℝ × ℝ :=
  let pnt := find_pnt s time_now
  if pnt = 0 then
    calc_javp_for_segment_const_jerk (time_now - (s.segment pnt).end_time) 0
      (s.segment pnt).end_accel (s.segment pnt).end_vel (s.segment pnt).end_pos
  else if pnt = s.num_segs then
    calc_javp_for_segment_const_jerk (time_now - (s.segment (pnt - 1)).end_time) 0
      (s.segment (pnt - 1)).end_accel (s.segment (pnt - 1)).end_vel
      (s.segment (pnt - 1)).end_pos
  else
    match (s.segment pnt).seg_type with
    | SegmentType.CONSTANT_JERK =>
        calc_javp_for_segment_const_jerk (time_now - (s.segment (pnt - 1)).end_time)
          (s.segment pnt).jerk_ref (s.segment (pnt - 1)).end_accel
          (s.segment (pnt - 1)).end_vel (s.segment (pnt - 1)).end_pos
    | SegmentType.POSITIVE_JERK =>
        calc_javp_for_segment_incr_jerk (time_now - (s.segment (pnt - 1)).end_time)
          ((s.segment pnt).end_time - (s.segment (pnt - 1)).end_time)
          (s.segment pnt).jerk_ref (s.segment (pnt - 1)).end_accel
          (s.segment (pnt - 1)).end_vel (s.segment (pnt - 1)).end_pos
    | SegmentType.NEGATIVE_JERK =>
        calc_javp_for_segment_decr_jerk (time_now - (s.segment (pnt - 1)).end_time)
          ((s.segment pnt).end_time - (s.segment (pnt - 1)).end_time)
          (s.segment pnt).jerk_ref (s.segment (pnt - 1)).end_accel
          (s.segment (pnt - 1)).end_vel (s.segment (pnt - 1)).end_pos

/-- Model of a C++ loop `for i = lo..hi: segment[i] = f(i)` where `f` reads
only entries outside the written range (or the entry being replaced): every
index in `[lo, hi]` is overwritten with `f` of the pre-loop store. -/
def mapRangeFrom (store : ℕ → Segment) (lo hi : ℕ) (f : ℕ → Segment) : ℕ → Segment :=
  fun j => if lo ≤ j ∧ j ≤ hi then f j else store j

/-- Modelled from the spec: AP_Math `kinematic_limit` (the source file is not
in the sample; only its call sites in `SCurve.cpp` are).  Per the spec it is
"a kinematic-limit blend that weights horizontal vs. asymmetric vertical
(climb/descent) limits by the track's vertical fraction", returning 0 for a
zero direction or a zero limit, the pure horizontal limit for a level track,
the up/down limit for a vertical track, and a slope-weighted blend
otherwise. -/
def kinematic_limit (direction : Vec3) (max_xy max_z_pos max_z_neg : ℝ) : ℝ :=
  if direction.length_squared = 0 ∨ max_xy = 0 ∨ max_z_pos = 0 ∨ max_z_neg = 0 then 0
  else
    let dir := direction.normalized
    let xy_length := vec2_length dir.x dir.y
    if xy_length = 0 then (if 0 < dir.z then max_z_pos else max_z_neg)
    else if dir.z = 0 then max_xy
    else
      let slope := dir.z / xy_length
      if 0 < slope then
        (if slope < max_z_pos / max_xy then max_xy * Real.sqrt (1 + sq slope)
         else max_z_pos * Real.sqrt (1 + 1 / sq slope))
      else
        (if -max_z_neg / max_xy < slope then max_xy * Real.sqrt (1 + sq slope)
         else max_z_neg * Real.sqrt (1 + 1 / sq slope))

/-- `SCurve::set_kinematic_limits`: take absolute values of all five limits
and resolve the along-track speed and acceleration limits. -/
def set_kinematic_limits (s : State) (origin destination : Vec3)
    (speed_xy speed_up speed_down accel_xy accel_z : ℝ) : State :=
  let speed_xy := |speed_xy|
  let speed_up := |speed_up|
  let speed_down := |speed_down|
  let accel_xy := |accel_xy|
  let accel_z := |accel_z|
  let direction := destination.sub origin
  { s with vel_max := kinematic_limit direction speed_xy speed_up speed_down,
           accel_max := kinematic_limit direction accel_xy accel_z accel_z }

/-- `SCurve::add_segments`: append the canonical 22 motion segments for a
path of length `L` after the initial segment (7 acceleration, 7 empty
speed-adjust, 1 constant-velocity, 7 deceleration), using `num_segs` as the
build cursor. -/
def add_segments (s : State) (L : ℝ) : State :=
  if L = 0 then s
  else
    let cp := calculate_path s.jerk_time s.jerk_max 0 s.accel_max s.vel_max (L / 2)
    let b1 := add_segments_jerk (s.segment, s.num_segs) s.jerk_time cp.Jm_out cp.t2_out
    let b2 := add_segment_const_jerk b1 cp.t4_out 0
    let b3 := add_segments_jerk b2 s.jerk_time (-cp.Jm_out) cp.t6_out
    let b4 := add_segment_const_jerk b3 0 0
    let b5 := add_segment_const_jerk b4 0 0
    let b6 := add_segment_const_jerk b5 0 0
    let b7 := add_segment_const_jerk b6 0 0
    let b8 := add_segment_const_jerk b7 0 0
    let b9 := add_segment_const_jerk b8 0 0
    let b10 := add_segment_const_jerk b9 0 0
    let t15 := 2 * (L / 2 - (b10.1 SEG_CHANGE_END).end_pos) / (b10.1 SEG_CHANGE_END).end_vel
    let b11 := add_segment_const_jerk b10 t15 0
    let b12 := add_segments_jerk b11 s.jerk_time (-cp.Jm_out) cp.t6_out
    let b13 := add_segment_const_jerk b12 cp.t4_out 0
    let b14 := add_segments_jerk b13 s.jerk_time cp.Jm_out cp.t2_out
    { s with segment := b14.1, num_segs := b14.2 }

/-- `SCurve::calculate_track`: full (re)build of a leg from origin,
destination and the raw axis-group limits. -/
def calculate_track (s : State) (origin destination : Vec3)
    (speed_xy speed_up speed_down accel_xy accel_z jerk_time_sec jerk_maximum : ℝ) :
    State :=
  let s1 := init s
  let s2 := { s1 with jerk_time := jerk_time_sec, jerk_max := jerk_maximum }
  let s3 := set_kinematic_limits s2 origin destination
    speed_xy speed_up speed_down accel_xy accel_z
  if ¬ (0 < s3.jerk_time) ∨ ¬ (0 < s3.jerk_max) ∨ ¬ (0 < s3.accel_max) ∨
      ¬ (0 < s3.vel_max) then s3
  else
    let track := destination.sub origin
    let s4 := { s3 with track := track }
    if track.length = 0 then { s4 with delta_unit := Vec3.zero }
    else add_segments { s4 with delta_unit := track.normalized } track.length

/-- `SCurve::set_origin_speed_max`: rebuild the leading ramp for a new origin
speed; returns the updated leg and the accepted origin speed. -/
def set_origin_speed_max (s : State) (speed : ℝ) : State × ℝ :=
  if s.num_segs ≠ segments_max then (s, 0)
  else if (s.segment SEG_INIT).end_vel = speed then (s, speed)
  else
    let Vm := (s.segment SEG_ACCEL_END).end_vel
    let L := (s.segment SEG_DECEL_END).end_pos
    let speed1 := min speed Vm
    let cp := calculate_path s.jerk_time s.jerk_max speed1 s.accel_max Vm (L / 2)
    let b1 := add_segment (s.segment, SEG_INIT) 0 SegmentType.CONSTANT_JERK 0 0 speed1 0
    let b2 := add_segments_jerk b1 s.jerk_time cp.Jm_out cp.t2_out
    let b3 := add_segment_const_jerk b2 cp.t4_out 0
    let b4 := add_segments_jerk b3 s.jerk_time (-cp.Jm_out) cp.t6_out
    let st5 := mapRangeFrom b4.1 (SEG_ACCEL_END + 1) SEG_CHANGE_END
      (fun _ =>
        { seg_type := SegmentType.CONSTANT_JERK, jerk_ref := 0,
          end_time := (b4.1 SEG_ACCEL_END).end_time, end_accel := 0,
          end_vel := (b4.1 SEG_ACCEL_END).end_vel,
          end_pos := (b4.1 SEG_ACCEL_END).end_pos })
    let cp2 := calculate_path s.jerk_time s.jerk_max 0 s.accel_max Vm
      (L - (st5 SEG_CONST).end_pos)
    let c0 := add_segment_const_jerk (st5, SEG_CONST) 0 0
    let c1 := add_segments_jerk c0 s.jerk_time (-cp2.Jm_out) cp2.t6_out
    let c2 := add_segment_const_jerk c1 cp2.t4_out 0
    let c3 := add_segments_jerk c2 s.jerk_time cp2.Jm_out cp2.t2_out
    let dP := L - (c3.1 SEG_DECEL_END).end_pos
    let t15 := dP / (c3.1 SEG_CONST).end_vel
    let stF := mapRangeFrom c3.1 SEG_CONST SEG_DECEL_END
      (fun i =>
        { c3.1 i with end_time := (c3.1 i).end_time + t15,
                      end_pos := (c3.1 i).end_pos + dP })
    ({ s with segment := stF }, speed1)

/-- `SCurve::set_destination_speed_max`: rebuild the trailing ramp for a new
destination speed. -/
def set_destination_speed_max (s : State) (speed : ℝ) : State :=
  if s.num_segs ≠ segments_max then s
  else if (s.segment (segments_max - 1)).end_vel = speed then s
  else
    let Vm := (s.segment SEG_CONST).end_vel
    let L := (s.segment SEG_DECEL_END).end_pos
    let speed1 := min speed Vm
    let cp := calculate_path s.jerk_time s.jerk_max speed1 s.accel_max Vm (L / 2)
    let d0 := add_segment_const_jerk (s.segment, SEG_CONST) 0 0
    let e1 := add_segments_jerk d0 s.jerk_time (-cp.Jm_out) cp.t6_out
    let e2 := add_segment_const_jerk e1 cp.t4_out 0
    let e3 := add_segments_jerk e2 s.jerk_time cp.Jm_out cp.t2_out
    let dP := L - (e3.1 SEG_DECEL_END).end_pos
    let t15 := dP / (e3.1 SEG_CONST).end_vel
    let stF := mapRangeFrom e3.1 SEG_CONST SEG_DECEL_END
      (fun i =>
        { e3.1 i with end_time := (e3.1 i).end_time + t15,
                      end_pos := (e3.1 i).end_pos + dP })
    { s with segment := stF }

/-- `set_speed_max`, change-speed-phase relocation (`time` inside the
velocity-change ramp): freeze the acceleration ramp into the initial
segment, shift the change segments down into the acceleration slots, and
blank the change slots. -/
def ssm_change_phase (s : State) : State :=
  let st0 := segWrite s.segment SEG_INIT
    { seg_type := SegmentType.CONSTANT_JERK, jerk_ref := 0,
      end_time := (s.segment SEG_ACCEL_END).end_time,
      end_accel := (s.segment SEG_ACCEL_END).end_accel,
      end_vel := (s.segment SEG_ACCEL_END).end_vel,
      end_pos := (s.segment SEG_ACCEL_END).end_pos }
  let st1 := mapRangeFrom st0 (SEG_INIT + 1) SEG_ACCEL_END
    (fun i =>
      { seg_type := (st0 (i + 7)).seg_type, jerk_ref := (st0 (i + 7)).jerk_ref,
        end_time := (st0 (i + 7)).end_time,
        end_accel := (st0 (i + 7)).end_accel,
        end_vel := (st0 (i + 7)).end_vel, end_pos := (st0 (i + 7)).end_pos })
  let st2 := mapRangeFrom st1 (SEG_ACCEL_END + 1) SEG_CHANGE_END
    (fun _ =>
      { seg_type := SegmentType.CONSTANT_JERK, jerk_ref := 0,
        end_time := (st1 SEG_ACCEL_END).end_time, end_accel := 0,
        end_vel := (st1 SEG_ACCEL_END).end_vel,
        end_pos := (st1 SEG_ACCEL_END).end_pos })
  { s with segment := st2 }

/-- `set_speed_max`, constant-speed-phase relocation (`time` inside the
cruise): freeze everything up to the current instantaneous state. -/
def ssm_const_phase (s : State) : State :=
  let st0 := segWrite s.segment SEG_INIT
    { seg_type := SegmentType.CONSTANT_JERK, jerk_ref := 0,
      end_time := (s.segment SEG_CHANGE_END).end_time, end_accel := 0,
      end_vel := (s.segment SEG_CHANGE_END).end_vel,
      end_pos := (s.segment SEG_CHANGE_END).end_pos }
  let u := update { s with segment := st0 } s.time
  let st1 := mapRangeFrom st0 (SEG_INIT + 1) SEG_CHANGE_END
    (fun _ =>
      { seg_type := SegmentType.CONSTANT_JERK, jerk_ref := 0,
        end_time := s.time, end_accel := 0, end_vel := u.2.2.1,
        end_pos := u.2.2.2 })
  { s with segment := st1 }

/-- `set_speed_max`, INIT/ACCEL adjustment: when the constant-acceleration
segment has not finished, shorten the acceleration ramp towards the new
(lower) target speed and rebuild the deceleration side. -/
def ssm_accel_adjust (s1 : State) (Pend : ℝ) : State :=
  let Vstart := (s1.segment SEG_INIT).end_vel
  let Vmin := (s1.segment SEG_ACCEL_END).end_vel -
    (s1.segment SEG_ACCEL_MAX).end_accel *
      ((s1.segment SEG_ACCEL_MAX).end_time -
        max s1.time ((s1.segment (SEG_ACCEL_MAX - 1)).end_time))
  let cp := calculate_path s1.jerk_time s1.jerk_max Vstart s1.accel_max
    (max Vmin s1.vel_max) (Pend / 2)
  let b1 := add_segments_jerk (s1.segment, SEG_INIT + 1) s1.jerk_time
    cp.Jm_out cp.t2_out
  let b2 := add_segment_const_jerk b1 cp.t4_out 0
  let b3 := add_segments_jerk b2 s1.jerk_time (-cp.Jm_out) cp.t6_out
  let st4 := mapRangeFrom b3.1 (SEG_ACCEL_END + 1) SEG_CONST
    (fun _ =>
      { seg_type := SegmentType.CONSTANT_JERK, jerk_ref := 0,
        end_time := (b3.1 SEG_ACCEL_END).end_time, end_accel := 0,
        end_vel := (b3.1 SEG_ACCEL_END).end_vel,
        end_pos := (b3.1 SEG_ACCEL_END).end_pos })
  let cp2 := calculate_path s1.jerk_time s1.jerk_max 0 s1.accel_max
    (max Vmin s1.vel_max) (Pend / 2)
  let c1 := add_segments_jerk (st4, SEG_CONST + 1) s1.jerk_time
    (-cp2.Jm_out) cp2.t6_out
  let c2 := add_segment_const_jerk c1 cp2.t4_out 0
  let c3 := add_segments_jerk c2 s1.jerk_time cp2.Jm_out cp2.t2_out
  let dP := Pend - (c3.1 SEG_DECEL_END).end_pos
  let t15 := dP / (c3.1 SEG_CONST).end_vel
  let st5 := mapRangeFrom c3.1 SEG_CONST SEG_DECEL_END
    (fun i =>
      { c3.1 i with end_time := (c3.1 i).end_time + t15,
                    end_pos := (c3.1 i).end_pos + dP })
  { s1 with segment := st5 }

/-- `set_speed_max`, CHANGE adjustment: blank the change segments, then (if
a speed change remains and there is room) insert a velocity-change jerk
profile, guarding against a zero jerk or negative durations. -/
def ssm_change_adjust (s2 : State) : State :=
  let st6 := mapRangeFrom s2.segment (SEG_ACCEL_END + 1) SEG_CHANGE_END
    (fun _ =>
      { seg_type := SegmentType.CONSTANT_JERK, jerk_ref := 0,
        end_time := (s2.segment SEG_ACCEL_END).end_time, end_accel := 0,
        end_vel := (s2.segment SEG_ACCEL_END).end_vel,
        end_pos := (s2.segment SEG_ACCEL_END).end_pos })
  let s3 := { s2 with segment := st6 }
  if ¬ (s3.vel_max = (s3.segment SEG_ACCEL_END).end_vel) then
    let L := (s3.segment SEG_CONST).end_pos - (s3.segment SEG_ACCEL_END).end_pos
    let r :=
      if s3.vel_max < (s3.segment SEG_ACCEL_END).end_vel ∧
          s3.jerk_time * 12 < L / (s3.segment SEG_ACCEL_END).end_vel then
        let cp := calculate_path s3.jerk_time s3.jerk_max s3.vel_max
          s3.accel_max ((s3.segment SEG_ACCEL_END).end_vel) (L / 2)
        (-cp.Jm_out, cp.t6_out, cp.t4_out, cp.t2_out)
      else if (s3.segment SEG_ACCEL_END).end_vel < s3.vel_max ∧
          (s3.segment SEG_ACCEL_END).end_vel < L / (s3.jerk_time * 12) then
        let Vm2 := min s3.vel_max (L / (s3.jerk_time * 12))
        let cp := calculate_path s3.jerk_time s3.jerk_max
          ((s3.segment SEG_ACCEL_END).end_vel) s3.accel_max Vm2 (L / 2)
        (cp.Jm_out, cp.t2_out, cp.t4_out, cp.t6_out)
      else ((0 : ℝ), (0 : ℝ), (0 : ℝ), (0 : ℝ))
    if ¬ (r.1 = 0) ∧ ¬ (r.2.1 < 0) ∧ ¬ (r.2.2.1 < 0) ∧ ¬ (r.2.2.2 < 0) then
      let b1 := add_segments_jerk (s3.segment, SEG_ACCEL_END + 1) s3.jerk_time
        r.1 r.2.1
      let b2 := add_segment_const_jerk b1 r.2.2.1 0
      let b3 := add_segments_jerk b2 s3.jerk_time (-r.1) r.2.2.2
      { s3 with segment := b3.1 }
    else s3
  else s3

/-- `set_speed_max`, deceleration rebuild and the final cruise re-timing so
the leg still ends at `Pend`. -/
def ssm_decel (s4 : State) (Pend Vend : ℝ) : State :=
  let Vend2 := min Vend (s4.segment SEG_CHANGE_END).end_vel
  let d0 := add_segment_const_jerk (s4.segment, SEG_CONST) 0 0
  let st7 :=
    if Vend2 < (s4.segment SEG_CHANGE_END).end_vel then
      let cp := calculate_path s4.jerk_time s4.jerk_max Vend2 s4.accel_max
        ((d0.1 SEG_CONST).end_vel) (Pend - (d0.1 SEG_CONST).end_pos)
      let e1 := add_segments_jerk d0 s4.jerk_time (-cp.Jm_out) cp.t6_out
      let e2 := add_segment_const_jerk e1 cp.t4_out 0
      let e3 := add_segments_jerk e2 s4.jerk_time cp.Jm_out cp.t2_out
      e3.1
    else
      mapRangeFrom d0.1 (SEG_CONST + 1) SEG_DECEL_END
        (fun _ =>
          { seg_type := SegmentType.CONSTANT_JERK, jerk_ref := 0,
            end_time := (d0.1 SEG_CONST).end_time, end_accel := 0,
            end_vel := (d0.1 SEG_CONST).end_vel,
            end_pos := (d0.1 SEG_CONST).end_pos })
  let dP := Pend - (st7 SEG_DECEL_END).end_pos
  let t15 := dP / (st7 SEG_CONST).end_vel
  let stF := mapRangeFrom st7 SEG_CONST SEG_DECEL_END
    (fun i =>
      { st7 i with end_time := (st7 i).end_time + t15,
                   end_pos := (st7 i).end_pos + dP })
  { s4 with segment := stF }

/-- `SCurve::set_speed_max`: in-flight retargeting of the leg's maximum
speed, preserving already-elapsed segments. -/
def set_speed_max (s : State) (speed_xy speed_up speed_down : ℝ) : State :=
  let track_speed_max := kinematic_limit s.delta_unit speed_xy speed_up |speed_down|
  if s.vel_max = track_speed_max then s
  else if s.vel_max = 0 ∨ track_speed_max = 0 then s
  else
    let s := { s with vel_max := track_speed_max }
    if s.num_segs ≠ segments_max then s
    else if (s.segment SEG_CONST).end_time ≤ s.time then s
    else
      let Pend := (s.segment SEG_DECEL_END).end_pos
      let Vend := min s.vel_max (s.segment SEG_DECEL_END).end_vel
      if s.time = 0 then
        let Vstart := min s.vel_max (s.segment SEG_INIT).end_vel
        let s1 := { s with num_segs := 1, segment := segWrite s.segment 0 Segment.zero }
        let s2 := add_segments s1 Pend
        let s3 := (set_origin_speed_max s2 Vstart).1
        set_destination_speed_max s3 Vend
      else
        let s1 :=
          if (s.segment SEG_ACCEL_END).end_time ≤ s.time ∧
              s.time ≤ (s.segment SEG_CHANGE_END).end_time then
            ssm_change_phase s
          else if (s.segment SEG_CHANGE_END).end_time ≤ s.time ∧
              s.time ≤ (s.segment SEG_CONST).end_time then
            ssm_const_phase s
          else s
        let s2 :=
          if s1.time ≤ (s1.segment SEG_ACCEL_MAX).end_time ∧
              0 < (s1.segment SEG_ACCEL_MAX).end_time -
                (s1.segment (SEG_ACCEL_MAX - 1)).end_time ∧
              s1.vel_max < (s1.segment SEG_ACCEL_END).end_vel ∧
              0 < (s1.segment SEG_ACCEL_MAX).end_accel then
            ssm_accel_adjust s1 Pend
          else s1
        ssm_decel (ssm_change_adjust s2) Pend Vend

/-! ## Time stepping -/

/-- Modelled from the spec: `SCurve::advance_time` and the one-line
accessors `get_time_elapsed`, `get_track`, `get_speed_along_track`,
`get_accel_along_track` live in `SCurve.h`, which is not in the sample.
The spec says stepping "advances this leg's own time by `dt`" and that the
blend check compares against "the lesser of the two legs' along-track
speed/acceleration" (the legs' `vel_max`/`accel_max`). -/
def advance_time (s : State) (dt : ℝ) : State := { s with time := s.time + dt }

/-- Modelled from the spec: elapsed-time accessor (`SCurve.h`). -/
def get_time_elapsed (s : State) : ℝ := s.time

/-- Modelled from the spec: track displacement accessor (`SCurve.h`). -/
def get_track (s : State) : Vec3 := s.track

/-- Modelled from the spec: along-track speed limit accessor (`SCurve.h`). -/
def get_speed_along_track (s : State) : ℝ := s.vel_max

/-- Modelled from the spec: along-track acceleration limit accessor
(`SCurve.h`). -/
def get_accel_along_track (s : State) : ℝ := s.accel_max

/-- `SCurve::move_from_time_pos_vel_accel`: evaluate the leg at `time_now`
and accumulate the scalar outputs along `delta_unit` into the 3D
accumulators. -/
def move_from_time_pos_vel_accel (s : State) (time_now : ℝ)
    (pos vel accel : Vec3) : Vec3 × Vec3 × Vec3 :=
  let u := update s time_now
  (pos.add (s.delta_unit.smul u.2.2.2),
   vel.add (s.delta_unit.smul u.2.2.1),
   accel.add (s.delta_unit.smul u.2.1))

/-- `SCurve::move_from_pos_vel_accel`: advance the time cursor then evaluate
relative to the origin. -/
def move_from_pos_vel_accel (s : State) (dt : ℝ) (pos vel accel : Vec3) :
    State × (Vec3 × Vec3 × Vec3) :=
  let s1 := advance_time s dt
  (s1, move_from_time_pos_vel_accel s1 s1.time pos vel accel)

/-- `SCurve::move_to_pos_vel_accel`: advance the time cursor then evaluate
relative to the destination. -/
def move_to_pos_vel_accel (s : State) (dt : ℝ) (pos vel accel : Vec3) :
    State × (Vec3 × Vec3 × Vec3) :=
  let s1 := advance_time s dt
  let r := move_from_time_pos_vel_accel s1 s1.time pos vel accel
  (s1, (r.1.sub s1.track, r.2.1, r.2.2))

/-- Result of `SCurve::advance_target_along_track`: the three (possibly
advanced) legs, the accumulated targets, and the returned flag. -/
structure AdvanceOut where
  this_leg : State
  prev_leg : State
  next_leg : State
  target_pos : Vec3
  target_vel : Vec3
  target_accel : Vec3
  result : Bool

/-- `SCurve::advance_target_along_track`: per-tick step with optional
corner-cutting onto `next_leg`. -/
def advance_target_along_track (s prev_leg next_leg : State) (wp_radius : ℝ)
    (fast_waypoint : Bool) (dt : ℝ) (target_pos target_vel target_accel : Vec3) :
    AdvanceOut :=
  let mp := move_to_pos_vel_accel prev_leg dt target_pos target_vel target_accel
  let prev1 := mp.1
  let ms := move_from_pos_vel_accel s dt mp.2.1 mp.2.2.1 mp.2.2.2
  let s1 := ms.1
  let s_finished := finished s1
  let time_to_destination := get_time_remaining s1
  if fast_waypoint = true ∧ braking s1 = true ∧ get_time_elapsed next_leg = 0 ∧
      time_to_destination ≤ get_accel_finished_time next_leg then
    let t1 := move_from_time_pos_vel_accel s1
      (get_time_elapsed s1 + time_to_destination / 2)
      (Vec3.neg (get_track s1)) Vec3.zero Vec3.zero
    let t2 := move_from_time_pos_vel_accel next_leg (time_to_destination / 2)
      t1.1 t1.2.1 t1.2.2
    let speed_min := min (get_speed_along_track s1) (get_speed_along_track next_leg)
    let accel_min := min (get_accel_along_track s1) (get_accel_along_track next_leg)
    if get_time_remaining s1 < time_end next_leg / 2 ∧
        t2.1.length < wp_radius ∧
        vec2_length t2.2.1.x t2.2.1.y < speed_min ∧
        vec2_length t2.2.2.x t2.2.2.y < 2 * accel_min then
      let mn := move_from_pos_vel_accel next_leg dt ms.2.1 ms.2.2.1 ms.2.2.2
      { this_leg := s1, prev_leg := prev1, next_leg := mn.1,
        target_pos := mn.2.1, target_vel := mn.2.2.1, target_accel := mn.2.2.2,
        result := s_finished }
    else
      { this_leg := s1, prev_leg := prev1, next_leg := next_leg,
        target_pos := ms.2.1, target_vel := ms.2.2.1, target_accel := ms.2.2.2,
        result := s_finished }
  else if ¬ (get_time_elapsed next_leg = 0) then
    let mn := move_from_pos_vel_accel next_leg dt ms.2.1 ms.2.2.1 ms.2.2.2
    let fin := if get_time_remaining s1 ≤ get_time_elapsed mn.1 then true else s_finished
    { this_leg := s1, prev_leg := prev1, next_leg := mn.1,
      target_pos := mn.2.1, target_vel := mn.2.2.1, target_accel := mn.2.2.2,
      result := fin }
  else
    { this_leg := s1, prev_leg := prev1, next_leg := next_leg,
      target_pos := ms.2.1, target_vel := ms.2.2.1, target_accel := ms.2.2.2,
      result := s_finished }

/-! ## Example leg states used as witnesses -/

/-- A leg in its default (just-initialised) state: only the all-zero initial
segment exists, `num_segs = 1`. -/
def unbuiltLeg : State :=
  { jerk_time := 0, jerk_max := 0, accel_max := 0, vel_max := 0, time := 0,
    num_segs := 1, segment := fun _ => Segment.zero,
    track := Vec3.zero, delta_unit := Vec3.zero }

/-- A fully built (`num_segs = 23`) leg whose segment table is identically
zero. -/
def flatLeg : State :=
  { jerk_time := 0, jerk_max := 0, accel_max := 0, vel_max := 0, time := 0,
    num_segs := 23, segment := fun _ => Segment.zero,
    track := Vec3.zero, delta_unit := Vec3.zero }

/-! ## C6: queries on an unbuilt leg -/

/-- C6: for every leg whose segment count is not the full canonical size
(`num_segs ≠ 23`), every query returns its safe default: `finished` is
true, `pos_end`, `time_end`, `get_time_remaining` and
`get_accel_finished_time` are 0, and `braking` is true. -/
theorem C6_unbuilt_queries_safe (s : State) (h : s.num_segs ≠ segments_max) :
    finished s = true ∧ pos_end s = 0 ∧ time_end s = 0 ∧
    get_time_remaining s = 0 ∧ get_accel_finished_time s = 0 ∧
    braking s = true := by
  refine ⟨?_, ?_, ?_, ?_, ?_, ?_⟩ <;>
    simp [finished, pos_end, time_end, get_time_remaining,
      get_accel_finished_time, braking, h]

/-- Witness for C6 at the default-initialised leg (`num_segs = 1`). -/
theorem C6_unbuilt_queries_safe_witness :
    finished unbuiltLeg = true ∧ pos_end unbuiltLeg = 0 ∧
    time_end unbuiltLeg = 0 ∧ get_time_remaining unbuiltLeg = 0 ∧
    get_accel_finished_time unbuiltLeg = 0 ∧ braking unbuiltLeg = true :=
  C6_unbuilt_queries_safe unbuiltLeg (by norm_num [unbuiltLeg, segments_max])

/-! ## C8: degenerate calculate_track -/

/-- C8: if `calculate_track` is called with origin equal to destination, or
with any resolved limit (jerk time, jerk max, resolved accel or speed
limit) non-positive, the leg is left degenerate: no motion segments are
built (`num_segs` stays 1, only the all-zero initial segment was written),
`finished` is immediately true, and `pos_end` is 0. -/
theorem C8_degenerate_track (s : State) (origin destination : Vec3)
    (speed_xy speed_up speed_down accel_xy accel_z jerk_time_sec jerk_maximum : ℝ)
    (h : destination = origin ∨ ¬ (0 < jerk_time_sec) ∨ ¬ (0 < jerk_maximum) ∨
      ¬ (0 < kinematic_limit (destination.sub origin) |accel_xy| |accel_z| |accel_z|) ∨
      ¬ (0 < kinematic_limit (destination.sub origin) |speed_xy| |speed_up| |speed_down|)) :
    (calculate_track s origin destination speed_xy speed_up speed_down accel_xy
        accel_z jerk_time_sec jerk_maximum).num_segs = 1 ∧
    finished (calculate_track s origin destination speed_xy speed_up speed_down
        accel_xy accel_z jerk_time_sec jerk_maximum) = true ∧
    pos_end (calculate_track s origin destination speed_xy speed_up speed_down
        accel_xy accel_z jerk_time_sec jerk_maximum) = 0 ∧
    ∀ j, j ≠ 0 → (calculate_track s origin destination speed_xy speed_up
        speed_down accel_xy accel_z jerk_time_sec jerk_maximum).segment j =
      s.segment j := by
  simp only [calculate_track]
  split_ifs with hg h2
  · refine ⟨?_, ?_, ?_, ?_⟩
    · simp [set_kinematic_limits, init]
    · simp [finished, set_kinematic_limits, init, segments_max]
    · simp [pos_end, set_kinematic_limits, init, segments_max]
    · intro j hj
      simp [set_kinematic_limits, init, segWrite_other _ _ _ _ hj]
  all_goals
    exfalso
    push_neg at hg
    simp only [set_kinematic_limits] at hg
    obtain ⟨hjt, hjm, hacc, hvel⟩ := hg
    rcases h with h | h | h | h | h
    · rw [h] at hvel
      rw [show origin.sub origin = Vec3.zero by simp [Vec3.sub, Vec3.zero]] at hvel
      rw [show kinematic_limit Vec3.zero |speed_xy| |speed_up| |speed_down| = 0 by
        simp [kinematic_limit, Vec3.zero, Vec3.length_squared]] at hvel
      exact lt_irrefl 0 hvel
    · exact h hjt
    · exact h hjm
    · exact h hacc
    · exact h hvel

/-- Witness for C8: zero-length track from the origin to itself. -/
theorem C8_degenerate_track_witness :
    (calculate_track unbuiltLeg ⟨1, 2, 3⟩ ⟨1, 2, 3⟩ 5 (5 / 2) (5 / 2) 2 1
      (1 / 2) 5).num_segs = 1 ∧
    finished (calculate_track unbuiltLeg ⟨1, 2, 3⟩ ⟨1, 2, 3⟩ 5 (5 / 2) (5 / 2)
      2 1 (1 / 2) 5) = true ∧
    pos_end (calculate_track unbuiltLeg ⟨1, 2, 3⟩ ⟨1, 2, 3⟩ 5 (5 / 2) (5 / 2)
      2 1 (1 / 2) 5) = 0 ∧
    ∀ j, j ≠ 0 → (calculate_track unbuiltLeg ⟨1, 2, 3⟩ ⟨1, 2, 3⟩ 5 (5 / 2)
      (5 / 2) 2 1 (1 / 2) 5).segment j = unbuiltLeg.segment j :=
  C8_degenerate_track unbuiltLeg ⟨1, 2, 3⟩ ⟨1, 2, 3⟩ 5 (5 / 2) (5 / 2) 2 1
    (1 / 2) 5 (Or.inl rfl)

/-! ## C10: sign-insensitivity of the limit arguments -/

/-- Negating any of the five scalar limits does not change
`set_kinematic_limits` (they are passed through `fabsf`). -/
theorem set_kinematic_limits_abs_insensitive (s : State) (o d : Vec3)
    (sxy sup sdn axy az : ℝ) :
    set_kinematic_limits s o d (-sxy) sup sdn axy az =
        set_kinematic_limits s o d sxy sup sdn axy az ∧
    set_kinematic_limits s o d sxy (-sup) sdn axy az =
        set_kinematic_limits s o d sxy sup sdn axy az ∧
    set_kinematic_limits s o d sxy sup (-sdn) axy az =
        set_kinematic_limits s o d sxy sup sdn axy az ∧
    set_kinematic_limits s o d sxy sup sdn (-axy) az =
        set_kinematic_limits s o d sxy sup sdn axy az ∧
    set_kinematic_limits s o d sxy sup sdn axy (-az) =
        set_kinematic_limits s o d sxy sup sdn axy az := by
  refine ⟨?_, ?_, ?_, ?_, ?_⟩ <;> simp [set_kinematic_limits, abs_neg]

/-- C10: `calculate_track` is insensitive to the sign of every scalar limit
argument; negating any one of `speed_xy`, `speed_up`, `speed_down`,
`accel_xy`, `accel_z` produces an identical leg state, because
`set_kinematic_limits` takes the absolute value of each limit. -/
theorem C10_sign_insensitive (s : State) (o d : Vec3)
    (sxy sup sdn axy az jt jm : ℝ) :
    calculate_track s o d (-sxy) sup sdn axy az jt jm =
        calculate_track s o d sxy sup sdn axy az jt jm ∧
    calculate_track s o d sxy (-sup) sdn axy az jt jm =
        calculate_track s o d sxy sup sdn axy az jt jm ∧
    calculate_track s o d sxy sup (-sdn) axy az jt jm =
        calculate_track s o d sxy sup sdn axy az jt jm ∧
    calculate_track s o d sxy sup sdn (-axy) az jt jm =
        calculate_track s o d sxy sup sdn axy az jt jm ∧
    calculate_track s o d sxy sup sdn axy (-az) jt jm =
        calculate_track s o d sxy sup sdn axy az jt jm := by
  obtain ⟨h1, h2, h3, h4, h5⟩ := set_kinematic_limits_abs_insensitive
    ({ init s with jerk_time := jt, jerk_max := jm }) o d sxy sup sdn axy az
  refine ⟨?_, ?_, ?_, ?_, ?_⟩ <;> simp only [calculate_track, h1, h2, h3, h4, h5]

/-! ## C3: invalid-argument handling in calculate_path -/

/-- Counterexample to C3 as stated: `V0` is *not* validated.  With the
non-positive start speed `V0 = 0` (and all other inputs positive) the
solver raises no `InvalidArgument` diagnostic and returns a *non-zero*
jerk output (`Jm_out = 1/2`). -/
theorem C3_counterexample :
    ¬ (0 < (0 : ℝ)) ∧
    (calculate_path 1 1 0 1 1 100).invalid = false ∧
    (calculate_path 1 1 0 1 1 100).Jm_out = 1 / 2 := by
  have hclamp : am_clamp 1 0 1 100 1 = 1 / 2 := by
    norm_num [am_clamp, sq, min_def]
  refine ⟨by norm_num, ?_, ?_⟩ <;>
    · rw [calculate_path]
      norm_num [hclamp, abs_lt]

/-- C3 (amended): when any of `tj`, `Jm`, `Am`, `Vm`, `L` is non-positive,
`calculate_path` reports `InvalidArgument` through the diagnostic channel
and returns all-zero output; the start speed `V0` is not checked. -/
theorem C3_invalid_args (tj Jm V0 Am Vm L : ℝ)
    (h : ¬ (0 < tj) ∨ ¬ (0 < Jm) ∨ ¬ (0 < Am) ∨ ¬ (0 < Vm) ∨ ¬ (0 < L)) :
    calculate_path tj Jm V0 Am Vm L =
      { invalid := true, Jm_out := 0, t2_out := 0, t4_out := 0, t6_out := 0 } := by
  rw [calculate_path, if_pos h]

/-- Witness for C3 at a concrete non-positive jerk ramp duration. -/
theorem C3_invalid_args_witness :
    calculate_path (-1) 1 2 1 1 100 =
      { invalid := true, Jm_out := 0, t2_out := 0, t4_out := 0, t6_out := 0 } :=
  C3_invalid_args (-1) 1 2 1 1 100 (Or.inl (by norm_num))

/-! ## C4: continuity across segment boundaries -/

/-- C4: for each of the three segment builders, evaluating the
corresponding closed-form segment formulas at the segment's full duration
reproduces exactly the stored `end_accel`, `end_vel`, `end_pos` of the
appended entry — so position, velocity and acceleration are continuous
across every interior segment boundary of a built leg (only jerk may
jump). -/
theorem C4_boundary_continuity (b : BuildSt) (tj Jm J0 : ℝ) (htj : 0 < tj) :
    ((calc_javp_for_segment_const_jerk tj J0 (b.1 (b.2 - 1)).end_accel
        (b.1 (b.2 - 1)).end_vel (b.1 (b.2 - 1)).end_pos).2.1 =
      ((add_segment_const_jerk b tj J0).1 b.2).end_accel ∧
     (calc_javp_for_segment_const_jerk tj J0 (b.1 (b.2 - 1)).end_accel
        (b.1 (b.2 - 1)).end_vel (b.1 (b.2 - 1)).end_pos).2.2.1 =
      ((add_segment_const_jerk b tj J0).1 b.2).end_vel ∧
     (calc_javp_for_segment_const_jerk tj J0 (b.1 (b.2 - 1)).end_accel
        (b.1 (b.2 - 1)).end_vel (b.1 (b.2 - 1)).end_pos).2.2.2 =
      ((add_segment_const_jerk b tj J0).1 b.2).end_pos) ∧
    ((calc_javp_for_segment_incr_jerk tj tj Jm (b.1 (b.2 - 1)).end_accel
        (b.1 (b.2 - 1)).end_vel (b.1 (b.2 - 1)).end_pos).2.1 =
      ((add_segment_incr_jerk b tj Jm).1 b.2).end_accel ∧
     (calc_javp_for_segment_incr_jerk tj tj Jm (b.1 (b.2 - 1)).end_accel
        (b.1 (b.2 - 1)).end_vel (b.1 (b.2 - 1)).end_pos).2.2.1 =
      ((add_segment_incr_jerk b tj Jm).1 b.2).end_vel ∧
     (calc_javp_for_segment_incr_jerk tj tj Jm (b.1 (b.2 - 1)).end_accel
        (b.1 (b.2 - 1)).end_vel (b.1 (b.2 - 1)).end_pos).2.2.2 =
      ((add_segment_incr_jerk b tj Jm).1 b.2).end_pos) ∧
    ((calc_javp_for_segment_decr_jerk tj tj Jm (b.1 (b.2 - 1)).end_accel
        (b.1 (b.2 - 1)).end_vel (b.1 (b.2 - 1)).end_pos).2.1 =
      ((add_segment_decr_jerk b tj Jm).1 b.2).end_accel ∧
     (calc_javp_for_segment_decr_jerk tj tj Jm (b.1 (b.2 - 1)).end_accel
        (b.1 (b.2 - 1)).end_vel (b.1 (b.2 - 1)).end_pos).2.2.1 =
      ((add_segment_decr_jerk b tj Jm).1 b.2).end_vel ∧
     (calc_javp_for_segment_decr_jerk tj tj Jm (b.1 (b.2 - 1)).end_accel
        (b.1 (b.2 - 1)).end_vel (b.1 (b.2 - 1)).end_pos).2.2.2 =
      ((add_segment_decr_jerk b tj Jm).1 b.2).end_pos) := by
  have htj' : tj ≠ 0 := ne_of_gt htj
  have hpi : Real.pi / tj * tj = Real.pi := div_mul_cancel₀ _ htj'
  have hpi2 : Real.pi / tj * (tj + tj) = 2 * Real.pi := by
    field_simp
    ring
  refine ⟨⟨?_, ?_, ?_⟩, ⟨?_, ?_, ?_⟩, ⟨?_, ?_, ?_⟩⟩ <;>
    simp only [calc_javp_for_segment_const_jerk, calc_javp_for_segment_incr_jerk,
      calc_javp_for_segment_decr_jerk, add_segment_const_jerk,
      add_segment_incr_jerk, add_segment_decr_jerk, add_segment, segWrite_same,
      hpi, hpi2, Real.sin_pi, Real.cos_pi, Real.sin_two_pi, Real.cos_two_pi,
      sq] <;>
    ring

/-- Witness for C4 at the zero build state with `tj = 1`, `Jm = 2`,
`J0 = 3`. -/
theorem C4_boundary_continuity_witness :
    ((calc_javp_for_segment_const_jerk 1 3
        ((fun _ : ℕ => Segment.zero) (1 - 1)).end_accel
        ((fun _ : ℕ => Segment.zero) (1 - 1)).end_vel
        ((fun _ : ℕ => Segment.zero) (1 - 1)).end_pos).2.1 =
      ((add_segment_const_jerk (fun _ => Segment.zero, 1) 1 3).1 1).end_accel ∧
     (calc_javp_for_segment_const_jerk 1 3
        ((fun _ : ℕ => Segment.zero) (1 - 1)).end_accel
        ((fun _ : ℕ => Segment.zero) (1 - 1)).end_vel
        ((fun _ : ℕ => Segment.zero) (1 - 1)).end_pos).2.2.1 =
      ((add_segment_const_jerk (fun _ => Segment.zero, 1) 1 3).1 1).end_vel ∧
     (calc_javp_for_segment_const_jerk 1 3
        ((fun _ : ℕ => Segment.zero) (1 - 1)).end_accel
        ((fun _ : ℕ => Segment.zero) (1 - 1)).end_vel
        ((fun _ : ℕ => Segment.zero) (1 - 1)).end_pos).2.2.2 =
      ((add_segment_const_jerk (fun _ => Segment.zero, 1) 1 3).1 1).end_pos) ∧
    ((calc_javp_for_segment_incr_jerk 1 1 2
        ((fun _ : ℕ => Segment.zero) (1 - 1)).end_accel
        ((fun _ : ℕ => Segment.zero) (1 - 1)).end_vel
        ((fun _ : ℕ => Segment.zero) (1 - 1)).end_pos).2.1 =
      ((add_segment_incr_jerk (fun _ => Segment.zero, 1) 1 2).1 1).end_accel ∧
     (calc_javp_for_segment_incr_jerk 1 1 2
        ((fun _ : ℕ => Segment.zero) (1 - 1)).end_accel
        ((fun _ : ℕ => Segment.zero) (1 - 1)).end_vel
        ((fun _ : ℕ => Segment.zero) (1 - 1)).end_pos).2.2.1 =
      ((add_segment_incr_jerk (fun _ => Segment.zero, 1) 1 2).1 1).end_vel ∧
     (calc_javp_for_segment_incr_jerk 1 1 2
        ((fun _ : ℕ => Segment.zero) (1 - 1)).end_accel
        ((fun _ : ℕ => Segment.zero) (1 - 1)).end_vel
        ((fun _ : ℕ => Segment.zero) (1 - 1)).end_pos).2.2.2 =
      ((add_segment_incr_jerk (fun _ => Segment.zero, 1) 1 2).1 1).end_pos) ∧
    ((calc_javp_for_segment_decr_jerk 1 1 2
        ((fun _ : ℕ => Segment.zero) (1 - 1)).end_accel
        ((fun _ : ℕ => Segment.zero) (1 - 1)).end_vel
        ((fun _ : ℕ => Segment.zero) (1 - 1)).end_pos).2.1 =
      ((add_segment_decr_jerk (fun _ => Segment.zero, 1) 1 2).1 1).end_accel ∧
     (calc_javp_for_segment_decr_jerk 1 1 2
        ((fun _ : ℕ => Segment.zero) (1 - 1)).end_accel
        ((fun _ : ℕ => Segment.zero) (1 - 1)).end_vel
        ((fun _ : ℕ => Segment.zero) (1 - 1)).end_pos).2.2.1 =
      ((add_segment_decr_jerk (fun _ => Segment.zero, 1) 1 2).1 1).end_vel ∧
     (calc_javp_for_segment_decr_jerk 1 1 2
        ((fun _ : ℕ => Segment.zero) (1 - 1)).end_accel
        ((fun _ : ℕ => Segment.zero) (1 - 1)).end_vel
        ((fun _ : ℕ => Segment.zero) (1 - 1)).end_pos).2.2.2 =
      ((add_segment_decr_jerk (fun _ => Segment.zero, 1) 1 2).1 1).end_pos) :=
  C4_boundary_continuity (fun _ => Segment.zero, 1) 1 2 3 (by norm_num)

/-! ## C5: no-op conditions of set_speed_max -/

/-- An unbuilt leg (`num_segs = 1`) with a nonzero current `vel_max` and a
horizontal unit direction, used to show `set_speed_max` is not a complete
no-op on unbuilt legs. -/
def unbuiltLegV1 : State :=
  { jerk_time := 0, jerk_max := 0, accel_max := 0, vel_max := 1, time := 0,
    num_segs := 1, segment := fun _ => Segment.zero,
    track := Vec3.zero, delta_unit := ⟨1, 0, 0⟩ }

/-- The resolved track speed for a pure-horizontal unit direction is the
horizontal limit. -/
theorem kinematic_limit_unit_x (a b c : ℝ) (ha : 0 < a) (hb : 0 < b)
    (hc : 0 < c) : kinematic_limit ⟨1, 0, 0⟩ a b c = a := by
  rw [kinematic_limit]
  norm_num [Vec3.length_squared, Vec3.normalized, Vec3.length, Vec3.smul,
    vec2_length, Real.sqrt_one, ha.ne', hb.ne', hc.ne']

/-- Counterexample to C5 as stated: on a leg that is not fully built
(`num_segs ≠ 23`), `set_speed_max` with a new nonzero resolved speed is
*not* a no-op — `vel_max` is updated (from 1 to 2 here) before the
`num_segs` guard returns. -/
theorem C5_counterexample :
    unbuiltLegV1.num_segs ≠ segments_max ∧ unbuiltLegV1.vel_max = 1 ∧
    (set_speed_max unbuiltLegV1 2 3 4).vel_max = 2 := by
  refine ⟨by norm_num [unbuiltLegV1, segments_max], rfl, ?_⟩
  have habs : |(4 : ℝ)| = 4 := abs_of_pos (by norm_num)
  simp only [set_speed_max, unbuiltLegV1, habs,
    kinematic_limit_unit_x 2 3 4 (by norm_num) (by norm_num) (by norm_num)]
  norm_num [segments_max]

/-- C5 (amended): `set_speed_max` is a complete no-op when the resolved new
track speed equals the current `vel_max`, or when either the old or the new
speed is zero.  When the leg is not fully built (`num_segs ≠ 23`) and
neither of those guards fires, every field except `vel_max` is unchanged
(no segment is touched) but `vel_max` is updated to the resolved speed
before the guard returns. -/
theorem C5_retarget_noop (s : State) (sxy sup sdn : ℝ) :
    (s.vel_max = kinematic_limit s.delta_unit sxy sup |sdn| →
      set_speed_max s sxy sup sdn = s) ∧
    (s.vel_max = 0 ∨ kinematic_limit s.delta_unit sxy sup |sdn| = 0 →
      set_speed_max s sxy sup sdn = s) ∧
    (s.num_segs ≠ segments_max →
      (set_speed_max s sxy sup sdn).segment = s.segment ∧
      (set_speed_max s sxy sup sdn).num_segs = s.num_segs ∧
      (set_speed_max s sxy sup sdn).time = s.time ∧
      (set_speed_max s sxy sup sdn).jerk_time = s.jerk_time ∧
      (set_speed_max s sxy sup sdn).jerk_max = s.jerk_max ∧
      (set_speed_max s sxy sup sdn).accel_max = s.accel_max ∧
      (set_speed_max s sxy sup sdn).track = s.track ∧
      (set_speed_max s sxy sup sdn).delta_unit = s.delta_unit ∧
      ((set_speed_max s sxy sup sdn).vel_max = s.vel_max ∨
        (set_speed_max s sxy sup sdn).vel_max =
          kinematic_limit s.delta_unit sxy sup |sdn|)) := by
  refine ⟨?_, ?_, ?_⟩
  · intro h
    simp only [set_speed_max]
    rw [if_pos h]
  · intro h
    simp only [set_speed_max]
    by_cases h1 : s.vel_max = kinematic_limit s.delta_unit sxy sup |sdn|
    · rw [if_pos h1]
    · rw [if_neg h1, if_pos h]
  · intro h
    by_cases h1 : s.vel_max = kinematic_limit s.delta_unit sxy sup |sdn|
    · have : set_speed_max s sxy sup sdn = s := by
        simp only [set_speed_max]
        rw [if_pos h1]
      rw [this]
      exact ⟨rfl, rfl, rfl, rfl, rfl, rfl, rfl, rfl, Or.inl rfl⟩
    · by_cases h2 : s.vel_max = 0 ∨ kinematic_limit s.delta_unit sxy sup |sdn| = 0
      · have : set_speed_max s sxy sup sdn = s := by
          simp only [set_speed_max]
          rw [if_neg h1, if_pos h2]
        rw [this]
        exact ⟨rfl, rfl, rfl, rfl, rfl, rfl, rfl, rfl, Or.inl rfl⟩
      · have : set_speed_max s sxy sup sdn =
            { s with vel_max := kinematic_limit s.delta_unit sxy sup |sdn| } := by
          simp only [set_speed_max]
          rw [if_neg h1, if_neg h2]
          exact if_pos h
        rw [this]
        exact ⟨rfl, rfl, rfl, rfl, rfl, rfl, rfl, rfl, Or.inr rfl⟩

/-- Witness for C5: retargeting a zero-speed leg is a no-op. -/
theorem C5_retarget_noop_witness : set_speed_max flatLeg 0 0 0 = flatLeg :=
  (C5_retarget_noop flatLeg 0 0 0).2.1 (Or.inl rfl)

/-! ## C2: evaluator behaviour at and beyond the boundaries -/

/-- If no segment's end time exceeds `t`, the backward scan keeps its
initial value `num_segs`. -/
theorem find_pnt_of_all_le (s : State) (t : ℝ)
    (h : ∀ j, j < s.num_segs → (s.segment j).end_time ≤ t) :
    find_pnt s t = s.num_segs := by
  rw [find_pnt]
  have key : ∀ (l : List ℕ) (a : ℕ),
      (∀ i ∈ l, ¬ (t < (s.segment (s.num_segs - 1 - i)).end_time)) →
      l.foldl (fun pnt i =>
        if t < (s.segment (s.num_segs - 1 - i)).end_time then s.num_segs - 1 - i
        else pnt) a = a := by
    intro l
    induction l with
    | nil => intro a _; rfl
    | cons x xs ih =>
        intro a hx
        rw [List.foldl_cons, if_neg (hx x (List.mem_cons_self x xs))]
        exact ih a fun i hi => hx i (List.mem_cons_of_mem x hi)
  apply key
  intro i hi
  rw [List.mem_range] at hi
  exact not_lt.mpr (h (s.num_segs - 1 - i) (by omega))

/-- If `t` is before the first segment's end time, the backward scan ends
at index 0 (the last loop iteration examines index 0 and overwrites any
earlier result). -/
theorem find_pnt_of_lt_first (s : State) (t : ℝ) (h0 : s.num_segs ≠ 0)
    (h : t < (s.segment 0).end_time) : find_pnt s t = 0 := by
  obtain ⟨m, hm⟩ : ∃ m, s.num_segs = m + 1 := ⟨s.num_segs - 1, by omega⟩
  rw [find_pnt, hm, List.range_succ, List.foldl_append]
  simp only [List.foldl_cons, List.foldl_nil]
  have hz : m + 1 - 1 - m = 0 := by omega
  rw [hz, if_pos h]

/-- C2 (amended): for a fully built leg, a query time at or past every
segment boundary (resp. before the first boundary) evaluates the
constant-jerk formulas with zero jerk from that boundary segment's stored
end-state — so acceleration is held and velocity/position continue to
integrate; the output equals the stored boundary state exactly when the
boundary's `end_accel` and `end_vel` are zero (as for a default-built leg
with a full stop), not in general. -/
theorem C2_boundary_eval (s : State) (t : ℝ) (hn : s.num_segs = segments_max) :
    ((∀ j, j < segments_max → (s.segment j).end_time ≤ t) →
      update s t = calc_javp_for_segment_const_jerk
        (t - (s.segment SEG_DECEL_END).end_time) 0
        (s.segment SEG_DECEL_END).end_accel (s.segment SEG_DECEL_END).end_vel
        (s.segment SEG_DECEL_END).end_pos) ∧
    (t < (s.segment SEG_INIT).end_time →
      update s t = calc_javp_for_segment_const_jerk
        (t - (s.segment SEG_INIT).end_time) 0
        (s.segment SEG_INIT).end_accel (s.segment SEG_INIT).end_vel
        (s.segment SEG_INIT).end_pos) ∧
    ((∀ j, j < segments_max → (s.segment j).end_time ≤ t) →
      (s.segment SEG_DECEL_END).end_accel = 0 →
      (s.segment SEG_DECEL_END).end_vel = 0 →
      update s t = (0, 0, 0, (s.segment SEG_DECEL_END).end_pos)) := by
  have hpast : (∀ j, j < segments_max → (s.segment j).end_time ≤ t) →
      update s t = calc_javp_for_segment_const_jerk
        (t - (s.segment SEG_DECEL_END).end_time) 0
        (s.segment SEG_DECEL_END).end_accel (s.segment SEG_DECEL_END).end_vel
        (s.segment SEG_DECEL_END).end_pos := by
    intro h
    have hp : find_pnt s t = s.num_segs :=
      find_pnt_of_all_le s t fun j hj => h j (hn ▸ hj)
    rw [update]
    simp only [hp, hn, segments_max, SEG_DECEL_END]
    norm_num
  refine ⟨hpast, ?_, ?_⟩
  · intro h
    have hp : find_pnt s t = 0 :=
      find_pnt_of_lt_first s t (by rw [hn]; simp [segments_max]) h
    rw [update]
    simp only [hp, SEG_INIT]
    norm_num
  · intro h hA hV
    rw [hpast h, hA, hV]
    simp only [calc_javp_for_segment_const_jerk]
    norm_num

/-- A fully built leg whose last segment carries a nonzero end velocity
(`end_vel = 1`, as a nonzero destination speed produces): segment `j` ends
at time `j` and position `j`. -/
def driftLeg : State :=
  { jerk_time := 0, jerk_max := 0, accel_max := 0, vel_max := 0, time := 0,
    num_segs := 23,
    segment := fun j =>
      { seg_type := SegmentType.CONSTANT_JERK, jerk_ref := 0,
        end_time := (j : ℝ), end_accel := 0, end_vel := 1, end_pos := (j : ℝ) },
    track := Vec3.zero, delta_unit := Vec3.zero }

/-- Counterexample to C2 as stated: on `driftLeg` (fully built,
`num_segs = 23`, last boundary at time 22 with stored `end_pos = 22` and
`end_vel = 1`), evaluating at `t = 23 ≥` every boundary returns position
23, not the stored boundary position 22 — the evaluator extrapolates with
the boundary velocity instead of clamping to the stored end-state. -/
theorem C2_counterexample :
    driftLeg.num_segs = segments_max ∧
    (∀ j, j < segments_max → (driftLeg.segment j).end_time ≤ (23 : ℝ)) ∧
    (driftLeg.segment SEG_DECEL_END).end_pos = 22 ∧
    (update driftLeg 23).2.2.2 = 23 := by
  have hall : ∀ j, j < segments_max → (driftLeg.segment j).end_time ≤ (23 : ℝ) := by
    intro j hj
    simp only [driftLeg, segments_max] at hj ⊢
    exact_mod_cast Nat.le_of_lt_succ (Nat.lt_succ_of_lt hj)
  refine ⟨rfl, hall, by norm_num [driftLeg, SEG_DECEL_END], ?_⟩
  have hp : find_pnt driftLeg 23 = driftLeg.num_segs :=
    find_pnt_of_all_le driftLeg 23 fun j hj => hall j hj
  rw [update]
  simp only [hp]
  norm_num [driftLeg, calc_javp_for_segment_const_jerk]

/-- Witness for C2 on the all-zero fully built leg: past the end the output
is exactly the (zero) boundary state. -/
theorem C2_boundary_eval_witness :
    update flatLeg 5 = (0, 0, 0, (flatLeg.segment SEG_DECEL_END).end_pos) :=
  (C2_boundary_eval flatLeg 5 rfl).2.2
    (fun j _ => by norm_num [flatLeg, Segment.zero]) rfl rfl

/-! ## C1: sign of the Path Solver's output durations -/

/-- The plateau duration computed by `t4_quad` is non-negative provided the
target speed is velocity-reachable and the distance discriminant dominates
the square of the (non-negative) offset term. -/
theorem t4_quad_nonneg (tj Jm V0 Vm Am L : ℝ) (htj : 0 < tj) (hJm : 0 < Jm)
    (hAm : 0 < Am) (hV0 : 0 ≤ V0)
    (hvel : V0 + Am * tj + Am * Am / Jm ≤ Vm)
    (hdisc : ((3 / 2) * (Am * Am) + Jm * V0 + (3 / 2) * Am * Jm * tj) ^ 2 ≤
      t4_disc tj Jm V0 Am L) :
    0 ≤ t4_quad tj Jm V0 Vm Am L := by
  rw [t4_quad]
  apply le_min
  · apply div_nonneg _ hAm.le
    linarith
  · refine le_trans ?_ (le_max_left _ _)
    apply div_nonneg _ (mul_pos hAm hJm).le
    have hR : (0 : ℝ) ≤ (3 / 2) * (Am * Am) + Jm * V0 + (3 / 2) * Am * Jm * tj := by
      have h1 : (0 : ℝ) ≤ Jm * V0 := mul_nonneg hJm.le hV0
      have h2 : (0 : ℝ) ≤ Am * Jm * tj := mul_nonneg (mul_nonneg hAm.le hJm.le) htj.le
      nlinarith [mul_self_nonneg Am]
    have hsq : (3 / 2) * (Am * Am) + Jm * V0 + (3 / 2) * Am * Jm * tj ≤
        Real.sqrt (t4_disc tj Jm V0 Am L) :=
      (Real.le_sqrt hR (le_trans (sq_nonneg _) hdisc)).mpr hdisc
    linarith

/-- The first acceleration clamp is positive for positive limits,
`0 ≤ V0 < Vm` and positive distance. -/
theorem am_clamp_pos (tj V0 Vm L Am : ℝ) (htj : 0 < tj) (hAm : 0 < Am)
    (hL : 0 < L) (hV0 : 0 ≤ V0) (hVV : V0 < Vm) :
    0 < am_clamp tj V0 Vm L Am := by
  rw [am_clamp]
  refine lt_min (lt_min hAm ?_) ?_
  · exact div_pos (by linarith) (by linarith)
  · apply div_pos
    · nlinarith
    · simp only [sq]
      nlinarith

/-- Counterexample to C1 as stated: with all of `tj, Jm, Am, Vm, L`
positive and `V0 < Vm` (here `V0 = -10 < 1 = Vm`), `calculate_path`
returns a *negative* ramp duration `t2_out ≤ -43/4` — the solver does not
clamp its output durations to be non-negative (its caller
`set_speed_max` even guards against negative durations with
`is_negative` checks, SCurve.cpp:225). -/
theorem C1_counterexample :
    (0 : ℝ) < 1 ∧ (0 : ℝ) < 5 ∧ (-10 : ℝ) < 1 ∧
    (calculate_path 1 1 (-10) 5 1 1).t2_out < 0 := by
  have hclamp : am_clamp 1 (-10) 1 1 5 = -(39 / 4) := by
    norm_num [am_clamp, sq, min_def]
  have hle : am_sol5 1 1 (-10) 1 1 (-(39 / 4)) ≤ -(39 / 4) :=
    le_trans (min_le_left _ _) (min_le_left _ _)
  refine ⟨by norm_num, by norm_num, by norm_num, ?_⟩
  have hval : (calculate_path 1 1 (-10) 5 1 1).t2_out =
      am_sol5 1 1 (-10) 1 1 (-(39 / 4)) / 1 - 1 := by
    rw [calculate_path]
    norm_num [hclamp, abs_lt]
  rw [hval]
  rw [div_one]
  linarith

/-- C1 (amended): for positive `tj, Jm, Am, Vm, L` with `0 ≤ V0 < Vm`, the
Path Solver's three durations are non-negative in every branch except the
distance-limited no-plateau branch (solution 5): the hypothesis `hfull`
excludes that branch by asserting that whenever the clamped acceleration
reaches `Jm·tj`, the target speed and the distance are large enough for the
full profile.  In the excluded branch `t2 = t6` can be negative (see the
counterexample); the solver never clamps its outputs. -/
theorem C1_path_solver_durations (tj Jm V0 Am Vm L : ℝ)
    (htj : 0 < tj) (hJm : 0 < Jm) (hAm : 0 < Am) (hVm : 0 < Vm) (hL : 0 < L)
    (hV0 : 0 ≤ V0) (hVV : V0 < Vm)
    (hfull : Jm * tj ≤ |am_clamp tj V0 Vm L Am| →
      V0 + am_clamp tj V0 Vm L Am * tj +
        am_clamp tj V0 Vm L Am * am_clamp tj V0 Vm L Am / Jm ≤ Vm ∧
      1 / (Jm * Jm) * (am_clamp tj V0 Vm L Am * am_clamp tj V0 Vm L Am *
          am_clamp tj V0 Vm L Am + am_clamp tj V0 Vm L Am * Jm *
          (V0 * 2 + am_clamp tj V0 Vm L Am * tj * 2)) + V0 * tj * 2 +
        am_clamp tj V0 Vm L Am * sq tj ≤ L) :
    0 ≤ (calculate_path tj Jm V0 Am Vm L).t2_out ∧
    0 ≤ (calculate_path tj Jm V0 Am Vm L).t4_out ∧
    0 ≤ (calculate_path tj Jm V0 Am Vm L).t6_out := by
  have hA1 : 0 < am_clamp tj V0 Vm L Am := am_clamp_pos tj V0 Vm L Am htj hAm hL hV0 hVV
  have hA1ne : am_clamp tj V0 Vm L Am ≠ 0 := ne_of_gt hA1
  have htj' : tj ≠ 0 := ne_of_gt htj
  have hJm' : Jm ≠ 0 := ne_of_gt hJm
  simp only [calculate_path]
  split_ifs with h1 h2 h3 h4 h5
  · exfalso
    rcases h1 with h | h | h | h | h <;> exact h (by assumption)
  · exfalso
    exact absurd h2 (not_le.mpr hVV)
  · exact ⟨le_refl 0, le_refl 0, le_refl 0⟩
  · -- solution 2: plateau only, with Jm replaced by Am1/tj
    push_neg at h4
    obtain ⟨h4a, h4b⟩ := h4
    have hJm1 : 0 < am_clamp tj V0 Vm L Am / tj := div_pos hA1 htj
    have hvel : V0 + am_clamp tj V0 Vm L Am * tj +
        am_clamp tj V0 Vm L Am * am_clamp tj V0 Vm L Am /
          (am_clamp tj V0 Vm L Am / tj) ≤ Vm := by
      have hx : am_clamp tj V0 Vm L Am * am_clamp tj V0 Vm L Am /
          (am_clamp tj V0 Vm L Am / tj) = am_clamp tj V0 Vm L Am * tj := by
        field_simp
        ring
      rw [hx]
      linarith
    have hdisc : ((3 / 2) * (am_clamp tj V0 Vm L Am * am_clamp tj V0 Vm L Am) +
        (am_clamp tj V0 Vm L Am / tj) * V0 +
        (3 / 2) * am_clamp tj V0 Vm L Am * (am_clamp tj V0 Vm L Am / tj) * tj) ^ 2 ≤
        t4_disc tj (am_clamp tj V0 Vm L Am / tj) V0 (am_clamp tj V0 Vm L Am) L := by
      have key : t4_disc tj (am_clamp tj V0 Vm L Am / tj) V0 (am_clamp tj V0 Vm L Am) L -
          ((3 / 2) * (am_clamp tj V0 Vm L Am * am_clamp tj V0 Vm L Am) +
            (am_clamp tj V0 Vm L Am / tj) * V0 +
            (3 / 2) * am_clamp tj V0 Vm L Am * (am_clamp tj V0 Vm L Am / tj) * tj) ^ 2 =
          2 * am_clamp tj V0 Vm L Am *
            ((am_clamp tj V0 Vm L Am / tj) * (am_clamp tj V0 Vm L Am / tj)) *
            (L - (4 * V0 * tj + 4 * am_clamp tj V0 Vm L Am * (tj * tj))) := by
        rw [t4_disc]
        field_simp
        ring
      have hfac : (0 : ℝ) ≤ 2 * am_clamp tj V0 Vm L Am *
          ((am_clamp tj V0 Vm L Am / tj) * (am_clamp tj V0 Vm L Am / tj)) *
          (L - (4 * V0 * tj + 4 * am_clamp tj V0 Vm L Am * (tj * tj))) := by
        apply mul_nonneg
        · exact (mul_pos (mul_pos (by norm_num : (0:ℝ) < 2) hA1)
            (mul_pos hJm1 hJm1)).le
        · simp only [sq] at h4b
          linarith
      linarith [key, hfac]
    refine ⟨le_refl 0, ?_, le_refl 0⟩
    exact t4_quad_nonneg tj (am_clamp tj V0 Vm L Am / tj) V0 Vm
      (am_clamp tj V0 Vm L Am) L htj hJm1 hA1 hV0 hvel hdisc
  · -- solution 5 is excluded by `hfull`
    exfalso
    have habs : Jm * tj ≤ |am_clamp tj V0 Vm L Am| := not_lt.mp h3
    obtain ⟨hv, hd⟩ := hfull habs
    rcases h5 with h | h
    · linarith
    · linarith
  · -- solution 7: full profile
    have habs : Jm * tj ≤ |am_clamp tj V0 Vm L Am| := not_lt.mp h3
    rw [abs_of_pos hA1] at habs
    push_neg at h5
    obtain ⟨hv, hd⟩ := h5
    have ht2 : 0 ≤ am_clamp tj V0 Vm L Am / Jm - tj := by
      rw [sub_nonneg, le_div_iff₀ hJm]
      linarith [habs]
    have hdisc : ((3 / 2) * (am_clamp tj V0 Vm L Am * am_clamp tj V0 Vm L Am) +
        Jm * V0 + (3 / 2) * am_clamp tj V0 Vm L Am * Jm * tj) ^ 2 ≤
        t4_disc tj Jm V0 (am_clamp tj V0 Vm L Am) L := by
      have key : t4_disc tj Jm V0 (am_clamp tj V0 Vm L Am) L -
          ((3 / 2) * (am_clamp tj V0 Vm L Am * am_clamp tj V0 Vm L Am) +
            Jm * V0 + (3 / 2) * am_clamp tj V0 Vm L Am * Jm * tj) ^ 2 =
          2 * am_clamp tj V0 Vm L Am * (Jm * Jm) *
            (L - (1 / (Jm * Jm) * (am_clamp tj V0 Vm L Am * am_clamp tj V0 Vm L Am *
              am_clamp tj V0 Vm L Am + am_clamp tj V0 Vm L Am * Jm *
              (V0 * 2 + am_clamp tj V0 Vm L Am * tj * 2)) + V0 * tj * 2 +
              am_clamp tj V0 Vm L Am * sq tj)) := by
        simp only [t4_disc, sq]
        field_simp
        ring
      have hfac : (0 : ℝ) ≤ 2 * am_clamp tj V0 Vm L Am * (Jm * Jm) *
          (L - (1 / (Jm * Jm) * (am_clamp tj V0 Vm L Am * am_clamp tj V0 Vm L Am *
            am_clamp tj V0 Vm L Am + am_clamp tj V0 Vm L Am * Jm *
            (V0 * 2 + am_clamp tj V0 Vm L Am * tj * 2)) + V0 * tj * 2 +
            am_clamp tj V0 Vm L Am * sq tj)) := by
        apply mul_nonneg
        · exact (mul_pos (mul_pos (by norm_num : (0:ℝ) < 2) hA1)
            (mul_pos hJm hJm)).le
        · linarith
      linarith [key, hfac]
    refine ⟨ht2, ?_, ht2⟩
    exact t4_quad_nonneg tj Jm V0 Vm (am_clamp tj V0 Vm L Am) L htj hJm hA1 hV0 hv hdisc

/-- Witness for C1 at a velocity-limited request (solution 0: all durations
zero). -/
theorem C1_path_solver_durations_witness :
    0 ≤ (calculate_path 1 1 0 1 1 100).t2_out ∧
    0 ≤ (calculate_path 1 1 0 1 1 100).t4_out ∧
    0 ≤ (calculate_path 1 1 0 1 1 100).t6_out :=
  C1_path_solver_durations 1 1 0 1 1 100 (by norm_num) (by norm_num)
    (by norm_num) (by norm_num) (by norm_num) (by norm_num) (by norm_num)
    (fun h => absurd h (by
      rw [show am_clamp 1 0 1 100 1 = 1 / 2 by norm_num [am_clamp, sq, min_def]]
      rw [show |(1 / 2 : ℝ)| = 1 / 2 from abs_of_pos (by norm_num)]
      norm_num))

/-! ## C9: cursor arithmetic and write bounds of the builders -/

theorem add_segment_snd (b : BuildSt) (t : ℝ) (ty : SegmentType) (jr a v p : ℝ) :
    (add_segment b t ty jr a v p).2 = b.2 + 1 := rfl

theorem add_segment_const_jerk_snd (b : BuildSt) (tj J0 : ℝ) :
    (add_segment_const_jerk b tj J0).2 = b.2 + 1 := rfl

theorem add_segment_incr_jerk_snd (b : BuildSt) (tj Jm : ℝ) :
    (add_segment_incr_jerk b tj Jm).2 = b.2 + 1 := rfl

theorem add_segment_decr_jerk_snd (b : BuildSt) (tj Jm : ℝ) :
    (add_segment_decr_jerk b tj Jm).2 = b.2 + 1 := rfl

theorem add_segments_jerk_snd (b : BuildSt) (tj Jm Tcj : ℝ) :
    (add_segments_jerk b tj Jm Tcj).2 = b.2 + 3 := rfl

theorem add_segment_fst (b : BuildSt) (t : ℝ) (ty : SegmentType) (jr a v p : ℝ)
    (j : ℕ) (h : b.2 + 1 ≤ j) : (add_segment b t ty jr a v p).1 j = b.1 j :=
  segWrite_other _ _ _ _ (by omega)

theorem add_segment_const_jerk_fst (b : BuildSt) (tj J0 : ℝ) (j : ℕ)
    (h : b.2 + 1 ≤ j) : (add_segment_const_jerk b tj J0).1 j = b.1 j :=
  segWrite_other _ _ _ _ (by omega)

theorem add_segment_incr_jerk_fst (b : BuildSt) (tj Jm : ℝ) (j : ℕ)
    (h : b.2 + 1 ≤ j) : (add_segment_incr_jerk b tj Jm).1 j = b.1 j :=
  segWrite_other _ _ _ _ (by omega)

theorem add_segment_decr_jerk_fst (b : BuildSt) (tj Jm : ℝ) (j : ℕ)
    (h : b.2 + 1 ≤ j) : (add_segment_decr_jerk b tj Jm).1 j = b.1 j :=
  segWrite_other _ _ _ _ (by omega)

theorem add_segments_jerk_fst (b : BuildSt) (tj Jm Tcj : ℝ) (j : ℕ)
    (h : b.2 + 3 ≤ j) : (add_segments_jerk b tj Jm Tcj).1 j = b.1 j := by
  rw [add_segments_jerk, add_segment_decr_jerk_fst, add_segment_const_jerk_fst,
    add_segment_incr_jerk_fst]
  any_goals simp only [add_segment_const_jerk_snd, add_segment_incr_jerk_snd]
  all_goals omega

theorem mapRangeFrom_upper (store : ℕ → Segment) (lo hi : ℕ) (f : ℕ → Segment)
    (j : ℕ) (h : hi + 1 ≤ j) : mapRangeFrom store lo hi f j = store j := by
  rw [mapRangeFrom]
  exact if_neg (by omega)

theorem add_segments_num_segs (s : State) (L : ℝ) (hL : L ≠ 0) :
    (add_segments s L).num_segs = s.num_segs + 22 := by
  rw [add_segments, if_neg hL]
  dsimp only
  simp only [add_segments_jerk_snd, add_segment_const_jerk_snd]

theorem add_segments_upper (s : State) (L : ℝ) (j : ℕ)
    (hj : s.num_segs + 22 ≤ j) : (add_segments s L).segment j = s.segment j := by
  rw [add_segments]
  split_ifs with h
  · rfl
  · dsimp only
    rw [add_segments_jerk_fst, add_segment_const_jerk_fst, add_segments_jerk_fst,
      add_segment_const_jerk_fst, add_segment_const_jerk_fst,
      add_segment_const_jerk_fst, add_segment_const_jerk_fst,
      add_segment_const_jerk_fst, add_segment_const_jerk_fst,
      add_segment_const_jerk_fst, add_segment_const_jerk_fst,
      add_segments_jerk_fst, add_segment_const_jerk_fst, add_segments_jerk_fst]
    any_goals simp only [add_segments_jerk_snd, add_segment_const_jerk_snd]
    any_goals omega

theorem set_origin_speed_max_num_segs (s : State) (spd : ℝ) :
    (set_origin_speed_max s spd).1.num_segs = s.num_segs := by
  rw [set_origin_speed_max]
  split_ifs <;> rfl

theorem pair_fst (x : ℕ → Segment) (i : ℕ) : (x, i).1 = x := rfl

theorem pair_snd (x : ℕ → Segment) (i : ℕ) : (x, i).2 = i := rfl

theorem set_origin_speed_max_upper (s : State) (spd : ℝ) (j : ℕ)
    (hj : segments_max ≤ j) :
    (set_origin_speed_max s spd).1.segment j = s.segment j := by
  simp only [segments_max] at hj
  rw [set_origin_speed_max]
  split_ifs with h1 h2
  · rfl
  · rfl
  · dsimp only
    rw [mapRangeFrom_upper _ _ _ _ j, add_segments_jerk_fst _ _ _ _ j,
      add_segment_const_jerk_fst _ _ _ j, add_segments_jerk_fst _ _ _ _ j,
      add_segment_const_jerk_fst _ _ _ j, pair_fst, mapRangeFrom_upper _ _ _ _ j,
      add_segments_jerk_fst _ _ _ _ j, add_segment_const_jerk_fst _ _ _ j,
      add_segments_jerk_fst _ _ _ _ j, add_segment_fst _ _ _ _ _ _ _ j, pair_fst]
    any_goals simp only [add_segments_jerk_snd, add_segment_const_jerk_snd,
      add_segment_snd, pair_snd, SEG_INIT, SEG_CONST, SEG_DECEL_END,
      SEG_CHANGE_END, SEG_ACCEL_END]
    any_goals omega

theorem set_destination_speed_max_num_segs (s : State) (spd : ℝ) :
    (set_destination_speed_max s spd).num_segs = s.num_segs := by
  rw [set_destination_speed_max]
  split_ifs <;> rfl

theorem set_destination_speed_max_upper (s : State) (spd : ℝ) (j : ℕ)
    (hj : segments_max ≤ j) :
    (set_destination_speed_max s spd).segment j = s.segment j := by
  simp only [segments_max] at hj
  rw [set_destination_speed_max]
  split_ifs with h1 h2
  · rfl
  · rfl
  · dsimp only
    rw [mapRangeFrom_upper _ _ _ _ j, add_segments_jerk_fst _ _ _ _ j,
      add_segment_const_jerk_fst _ _ _ j, add_segments_jerk_fst _ _ _ _ j,
      add_segment_const_jerk_fst _ _ _ j, pair_fst]
    any_goals simp only [add_segments_jerk_snd, add_segment_const_jerk_snd,
      pair_snd, SEG_CONST, SEG_DECEL_END]
    any_goals omega

theorem ssm_change_phase_num_segs (s : State) :
    (ssm_change_phase s).num_segs = s.num_segs := rfl

theorem ssm_change_phase_upper (s : State) (j : ℕ) (hj : segments_max ≤ j) :
    (ssm_change_phase s).segment j = s.segment j := by
  simp only [segments_max] at hj
  rw [ssm_change_phase]
  dsimp only
  rw [mapRangeFrom_upper _ _ _ _ j, mapRangeFrom_upper _ _ _ _ j,
    segWrite_other _ _ _ _ (by simp only [SEG_INIT]; omega)]
  any_goals simp only [SEG_INIT, SEG_ACCEL_END, SEG_CHANGE_END]
  any_goals omega

theorem ssm_const_phase_num_segs (s : State) :
    (ssm_const_phase s).num_segs = s.num_segs := rfl

theorem ssm_const_phase_upper (s : State) (j : ℕ) (hj : segments_max ≤ j) :
    (ssm_const_phase s).segment j = s.segment j := by
  simp only [segments_max] at hj
  rw [ssm_const_phase]
  dsimp only
  rw [mapRangeFrom_upper _ _ _ _ j,
    segWrite_other _ _ _ _ (by simp only [SEG_INIT]; omega)]
  any_goals simp only [SEG_INIT, SEG_CHANGE_END]
  any_goals omega

theorem ssm_accel_adjust_num_segs (s1 : State) (Pend : ℝ) :
    (ssm_accel_adjust s1 Pend).num_segs = s1.num_segs := rfl

theorem ssm_accel_adjust_upper (s1 : State) (Pend : ℝ) (j : ℕ)
    (hj : segments_max ≤ j) :
    (ssm_accel_adjust s1 Pend).segment j = s1.segment j := by
  simp only [segments_max] at hj
  rw [ssm_accel_adjust]
  dsimp only
  rw [mapRangeFrom_upper _ _ _ _ j, add_segments_jerk_fst _ _ _ _ j,
    add_segment_const_jerk_fst _ _ _ j, add_segments_jerk_fst _ _ _ _ j,
    pair_fst, mapRangeFrom_upper _ _ _ _ j, add_segments_jerk_fst _ _ _ _ j,
    add_segment_const_jerk_fst _ _ _ j, add_segments_jerk_fst _ _ _ _ j,
    pair_fst]
  any_goals simp only [add_segments_jerk_snd, add_segment_const_jerk_snd,
    pair_snd, SEG_INIT, SEG_CONST, SEG_DECEL_END, SEG_CHANGE_END,
    SEG_ACCEL_END]
  any_goals omega

theorem ssm_change_adjust_num_segs (s2 : State) :
    (ssm_change_adjust s2).num_segs = s2.num_segs := by
  rw [ssm_change_adjust]
  dsimp only
  split_ifs <;> rfl

theorem ssm_change_adjust_upper (s2 : State) (j : ℕ) (hj : segments_max ≤ j) :
    (ssm_change_adjust s2).segment j = s2.segment j := by
  simp only [segments_max] at hj
  rw [ssm_change_adjust]
  dsimp only
  split_ifs
  all_goals dsimp only
  all_goals
    first
      | rw [add_segments_jerk_fst _ _ _ _ j, add_segment_const_jerk_fst _ _ _ j,
          add_segments_jerk_fst _ _ _ _ j, pair_fst, mapRangeFrom_upper _ _ _ _ j]
      | rw [mapRangeFrom_upper _ _ _ _ j]
  any_goals simp only [add_segments_jerk_snd, add_segment_const_jerk_snd,
    pair_snd, SEG_ACCEL_END, SEG_CHANGE_END]
  any_goals omega

theorem ssm_decel_num_segs (s4 : State) (Pend Vend : ℝ) :
    (ssm_decel s4 Pend Vend).num_segs = s4.num_segs := rfl

theorem ssm_decel_upper (s4 : State) (Pend Vend : ℝ) (j : ℕ)
    (hj : segments_max ≤ j) :
    (ssm_decel s4 Pend Vend).segment j = s4.segment j := by
  simp only [segments_max] at hj
  rw [ssm_decel]
  dsimp only
  split_ifs with h1
  · rw [mapRangeFrom_upper _ _ _ _ j, add_segments_jerk_fst _ _ _ _ j,
      add_segment_const_jerk_fst _ _ _ j, add_segments_jerk_fst _ _ _ _ j,
      add_segment_const_jerk_fst _ _ _ j, pair_fst]
    any_goals simp only [add_segments_jerk_snd, add_segment_const_jerk_snd,
      pair_snd, SEG_CONST, SEG_DECEL_END]
    any_goals omega
  · rw [mapRangeFrom_upper _ _ _ _ j, mapRangeFrom_upper _ _ _ _ j,
      add_segment_const_jerk_fst _ _ _ j, pair_fst]
    any_goals simp only [add_segment_const_jerk_snd, pair_snd, SEG_CONST,
      SEG_DECEL_END]
    any_goals omega

theorem vec3_sub_eq_zero_iff (a b : Vec3) : a.sub b = Vec3.zero ↔ a = b := by
  obtain ⟨ax, ay, az⟩ := a
  obtain ⟨bx, b2, b3⟩ := b
  simp [Vec3.sub, Vec3.zero, Vec3.mk.injEq, sub_eq_zero]

theorem vec3_length_eq_zero_iff (a : Vec3) : a.length = 0 ↔ a = Vec3.zero := by
  obtain ⟨x, y, z⟩ := a
  rw [Vec3.length, Real.sqrt_eq_zero']
  constructor
  · intro h
    simp only [Vec3.length_squared] at h
    have hx : x = 0 := by
      nlinarith [mul_self_nonneg x, mul_self_nonneg y, mul_self_nonneg z]
    have hy : y = 0 := by
      nlinarith [mul_self_nonneg x, mul_self_nonneg y, mul_self_nonneg z]
    have hz : z = 0 := by
      nlinarith [mul_self_nonneg x, mul_self_nonneg y, mul_self_nonneg z]
    simp [Vec3.zero, hx, hy, hz]
  · intro h
    simp only [Vec3.zero, Vec3.mk.injEq] at h
    obtain ⟨hx, hy, hz⟩ := h
    simp [Vec3.length_squared, hx, hy, hz]

/-- C9: after `calculate_track` with distinct origin/destination and
positive resolved limits, `num_segs` is exactly 23; each of
`set_origin_speed_max`, `set_destination_speed_max` and `set_speed_max`
(the latter given a built leg with nonzero traveled distance, which a valid
build guarantees) preserves `num_segs = 23`; and none of the four
operations ever writes to a segment index past 22 (every entry at index
≥ 23 of the unbounded store model is left untouched). -/
theorem C9_segment_topology (s : State) (origin destination : Vec3)
    (sxy sup sdn axy az jt jm spd spd2 sx2 su2 sd2 : ℝ) :
    (origin ≠ destination → 0 < jt → 0 < jm →
      0 < kinematic_limit (destination.sub origin) |axy| |az| |az| →
      0 < kinematic_limit (destination.sub origin) |sxy| |sup| |sdn| →
      (calculate_track s origin destination sxy sup sdn axy az jt jm).num_segs =
        segments_max ∧
      ∀ j, segments_max ≤ j →
        (calculate_track s origin destination sxy sup sdn axy az jt jm).segment j =
          s.segment j) ∧
    (s.num_segs = segments_max →
      (set_origin_speed_max s spd).1.num_segs = segments_max ∧
      ∀ j, segments_max ≤ j →
        (set_origin_speed_max s spd).1.segment j = s.segment j) ∧
    (s.num_segs = segments_max →
      (set_destination_speed_max s spd2).num_segs = segments_max ∧
      ∀ j, segments_max ≤ j →
        (set_destination_speed_max s spd2).segment j = s.segment j) ∧
    (s.num_segs = segments_max → (s.segment SEG_DECEL_END).end_pos ≠ 0 →
      (set_speed_max s sx2 su2 sd2).num_segs = segments_max ∧
      ∀ j, segments_max ≤ j →
        (set_speed_max s sx2 su2 sd2).segment j = s.segment j) := by
  refine ⟨?_, ?_, ?_, ?_⟩
  · intro ho h1 h2 h3 h4
    simp only [calculate_track]
    split_ifs with hg hlen
    · exfalso
      dsimp only [set_kinematic_limits] at hg
      rcases hg with h | h | h | h
      · exact h h1
      · exact h h2
      · exact h h3
      · exact h h4
    · exfalso
      exact ho ((vec3_sub_eq_zero_iff destination origin).mp
        ((vec3_length_eq_zero_iff _).mp hlen)).symm
    · constructor
      · rw [add_segments_num_segs _ _ hlen]
        dsimp only [set_kinematic_limits, init]
        norm_num [segments_max]
      · intro j hj
        simp only [segments_max] at hj
        rw [add_segments_upper]
        · dsimp only [set_kinematic_limits, init]
          exact segWrite_other _ _ _ _ (by omega)
        · dsimp only [set_kinematic_limits, init]
          omega
  · intro hn
    exact ⟨by rw [set_origin_speed_max_num_segs]; exact hn,
      fun j hj => set_origin_speed_max_upper s spd j hj⟩
  · intro hn
    exact ⟨by rw [set_destination_speed_max_num_segs]; exact hn,
      fun j hj => set_destination_speed_max_upper s spd2 j hj⟩
  · intro hn hP
    simp only [set_speed_max]
    by_cases g1 : s.vel_max = kinematic_limit s.delta_unit sx2 su2 |sd2|
    · rw [if_pos g1]
      exact ⟨hn, fun j hj => rfl⟩
    rw [if_neg g1]
    by_cases g2 : s.vel_max = 0 ∨ kinematic_limit s.delta_unit sx2 su2 |sd2| = 0
    · rw [if_pos g2]
      exact ⟨hn, fun j hj => rfl⟩
    rw [if_neg g2, if_neg (not_not_intro hn)]
    by_cases g4 : (s.segment SEG_CONST).end_time ≤ s.time
    · rw [if_pos g4]
      exact ⟨hn, fun j hj => rfl⟩
    rw [if_neg g4]
    by_cases g5 : s.time = 0
    · rw [if_pos g5]
      constructor
      · rw [set_destination_speed_max_num_segs, set_origin_speed_max_num_segs,
          add_segments_num_segs _ _ hP]
        norm_num [segments_max]
      · intro j hj
        rw [set_destination_speed_max_upper _ _ _ hj,
          set_origin_speed_max_upper _ _ _ hj, add_segments_upper]
        · simp only [segments_max] at hj
          exact segWrite_other _ _ _ _ (by omega)
        · simp only [segments_max] at hj
          dsimp only
          omega
    · rw [if_neg g5]
      constructor
      · rw [ssm_decel_num_segs, ssm_change_adjust_num_segs]
        split
        all_goals try split
        all_goals try split
        all_goals try rw [ssm_accel_adjust_num_segs]
        all_goals try rw [ssm_change_phase_num_segs]
        all_goals try rw [ssm_const_phase_num_segs]
        all_goals exact hn
      · intro j hj
        rw [ssm_decel_upper _ _ _ _ hj, ssm_change_adjust_upper _ _ hj]
        split
        all_goals try split
        all_goals try split
        all_goals try rw [ssm_accel_adjust_upper _ _ _ hj]
        all_goals try rw [ssm_change_phase_upper _ _ hj]
        all_goals try rw [ssm_const_phase_upper _ _ hj]
        all_goals rfl

/-- Witness for C9 on a concrete built leg with nonzero traveled distance:
a valid build and each setter leave `num_segs = 23`. -/
theorem C9_segment_topology_witness :
    (calculate_track driftLeg ⟨0, 0, 0⟩ ⟨1, 0, 0⟩ 2 3 4 2 3 1 5).num_segs =
      segments_max ∧
    (set_origin_speed_max driftLeg 1).1.num_segs = segments_max ∧
    (set_destination_speed_max driftLeg 1).num_segs = segments_max ∧
    (set_speed_max driftLeg 2 3 4).num_segs = segments_max := by
  have hsub : Vec3.sub ⟨1, 0, 0⟩ ⟨0, 0, 0⟩ = (⟨1, 0, 0⟩ : Vec3) := by
    simp [Vec3.sub]
  have h := C9_segment_topology driftLeg ⟨0, 0, 0⟩ ⟨1, 0, 0⟩ 2 3 4 2 3 1 5 1 1 2 3 4
  refine ⟨(h.1 (by norm_num [Vec3.mk.injEq]) (by norm_num) (by norm_num) ?_ ?_).1,
    (h.2.1 rfl).1, (h.2.2.1 rfl).1,
    (h.2.2.2 rfl (by norm_num [driftLeg, SEG_DECEL_END])).1⟩
  · rw [hsub, show |(2 : ℝ)| = 2 from abs_of_pos (by norm_num),
      show |(3 : ℝ)| = 3 from abs_of_pos (by norm_num),
      kinematic_limit_unit_x 2 3 3 (by norm_num) (by norm_num) (by norm_num)]
    norm_num
  · rw [hsub, show |(2 : ℝ)| = 2 from abs_of_pos (by norm_num),
      show |(3 : ℝ)| = 3 from abs_of_pos (by norm_num),
      show |(4 : ℝ)| = 4 from abs_of_pos (by norm_num),
      kinematic_limit_unit_x 2 3 4 (by norm_num) (by norm_num) (by norm_num)]
    norm_num

/-! ## C7: corner-cutting decision in advance_target_along_track -/

/-- C7 (amended): with `fast_waypoint` true, this leg braking after the
step, and the next leg not yet started, `advance_target_along_track`
advances `next_leg` if and only if *four* conditions hold: the two time
gates — remaining time within the next leg's acceleration-finished time,
and remaining time under half the next leg's total time — *and* the
predicted corner position lies within `wp_radius`, *and* the predicted
horizontal speed/acceleration stay under the lesser of the two legs'
along-track speed (resp. twice the lesser acceleration).  The claim's
conditions (a) and (b) alone are not sufficient. -/
theorem C7_corner_cut_decision (s prev_leg next_leg : State) (wp_radius dt : ℝ)
    (target_pos target_vel target_accel : Vec3)
    (hb : braking (advance_time s dt) = true)
    (hn0 : get_time_elapsed next_leg = 0) :
    (advance_target_along_track s prev_leg next_leg wp_radius true dt
        target_pos target_vel target_accel).next_leg =
      (let s1 := advance_time s dt
       let ttd := get_time_remaining s1
       let t1 := move_from_time_pos_vel_accel s1 (get_time_elapsed s1 + ttd / 2)
         (Vec3.neg (get_track s1)) Vec3.zero Vec3.zero
       let t2 := move_from_time_pos_vel_accel next_leg (ttd / 2) t1.1 t1.2.1 t1.2.2
       if ttd ≤ get_accel_finished_time next_leg ∧
           (get_time_remaining s1 < time_end next_leg / 2 ∧
            t2.1.length < wp_radius ∧
            vec2_length t2.2.1.x t2.2.1.y <
              min (get_speed_along_track s1) (get_speed_along_track next_leg) ∧
            vec2_length t2.2.2.x t2.2.2.y <
              2 * min (get_accel_along_track s1) (get_accel_along_track next_leg))
       then advance_time next_leg dt else next_leg) := by
  simp only [advance_target_along_track, move_from_pos_vel_accel,
    move_to_pos_vel_accel]
  by_cases hgate : get_time_remaining (advance_time s dt) ≤
      get_accel_finished_time next_leg
  · rw [if_pos ⟨trivial, hb, hn0, hgate⟩]
    split_ifs with h1 h2 h3
    · rfl
    · exact absurd ⟨hgate, h1⟩ h2
    · exact absurd h3.2 h1
    · rfl
  · rw [if_neg ?houter, if_neg (not_not_intro hn0), if_neg ?hrhs]
    case houter =>
      intro hcon
      exact hgate hcon.2.2.2
    case hrhs =>
      intro hcon
      exact hgate hcon.1

/-- A leg with zero `delta_unit` contributes nothing to the accumulators. -/
theorem move_from_time_zero_delta (s : State) (t : ℝ) (p v a : Vec3)
    (hd : s.delta_unit = Vec3.zero) :
    move_from_time_pos_vel_accel s t p v a = (p, v, a) := by
  obtain ⟨px, py, pz⟩ := p
  obtain ⟨vx, vy, vz⟩ := v
  obtain ⟨ax, ay, az⟩ := a
  simp [move_from_time_pos_vel_accel, hd, Vec3.zero, Vec3.smul, Vec3.add]

/-- This leg for the corner-cutting counterexample: braking (past the
cruise start at time 0) with 6 seconds remaining to its end at 22. -/
def cornerThisLeg : State :=
  { jerk_time := 0, jerk_max := 0, accel_max := 1, vel_max := 1, time := 15,
    num_segs := 23,
    segment := fun j =>
      { seg_type := SegmentType.CONSTANT_JERK, jerk_ref := 0,
        end_time := if j = 22 then 22 else 0, end_accel := 0, end_vel := 0,
        end_pos := 0 },
    track := Vec3.zero, delta_unit := Vec3.zero }

/-- Next leg for the corner-cutting counterexample: not yet started, every
segment boundary at time 10. -/
def cornerNextLeg : State :=
  { jerk_time := 0, jerk_max := 0, accel_max := 1, vel_max := 1, time := 0,
    num_segs := 23,
    segment := fun _ =>
      { seg_type := SegmentType.CONSTANT_JERK, jerk_ref := 0, end_time := 10,
        end_accel := 0, end_vel := 0, end_pos := 0 },
    track := Vec3.zero, delta_unit := Vec3.zero }

/-- Counterexample to C7 as stated: with `fast_waypoint` true, this leg
braking, the next leg not yet started, and the claim's conditions (a) and
(b) all satisfied (corner within `wp_radius = 1`, predicted horizontal
speed and acceleration under the limits), the controller still does *not*
advance `next_leg` (its time cursor stays 0, though a step would move it to
1), because the remaining time (6) is not under half the next leg's total
time (10/2 = 5). -/
theorem C7_counterexample :
    braking (advance_time cornerThisLeg 1) = true ∧
    get_time_elapsed cornerNextLeg = 0 ∧
    (let s1 := advance_time cornerThisLeg 1
     let ttd := get_time_remaining s1
     let t1 := move_from_time_pos_vel_accel s1 (get_time_elapsed s1 + ttd / 2)
       (Vec3.neg (get_track s1)) Vec3.zero Vec3.zero
     let t2 := move_from_time_pos_vel_accel cornerNextLeg (ttd / 2) t1.1 t1.2.1 t1.2.2
     t2.1.length < 1 ∧
     vec2_length t2.2.1.x t2.2.1.y <
       min (get_speed_along_track s1) (get_speed_along_track cornerNextLeg) ∧
     vec2_length t2.2.2.x t2.2.2.y <
       2 * min (get_accel_along_track s1) (get_accel_along_track cornerNextLeg)) ∧
    (advance_target_along_track cornerThisLeg unbuiltLeg cornerNextLeg 1 true 1
      Vec3.zero Vec3.zero Vec3.zero).next_leg.time = 0 ∧
    (advance_time cornerNextLeg 1).time = 1 := by
  have hd1 : (advance_time cornerThisLeg 1).delta_unit = Vec3.zero := rfl
  have hd2 : cornerNextLeg.delta_unit = Vec3.zero := rfl
  have hbrake : braking (advance_time cornerThisLeg 1) = true := by
    simp [braking, advance_time, cornerThisLeg, segments_max, SEG_CONST]
    norm_num
  have httd : get_time_remaining (advance_time cornerThisLeg 1) = 6 := by
    simp [get_time_remaining, advance_time, cornerThisLeg, segments_max,
      SEG_DECEL_END]
    norm_num
  have hgaft : get_accel_finished_time cornerNextLeg = 10 := by
    simp [get_accel_finished_time, cornerNextLeg, segments_max, SEG_ACCEL_END]
  have hte : time_end cornerNextLeg = 10 := by
    simp [time_end, cornerNextLeg, segments_max, SEG_DECEL_END]
  have hturn : (let s1 := advance_time cornerThisLeg 1
      let ttd := get_time_remaining s1
      let t1 := move_from_time_pos_vel_accel s1 (get_time_elapsed s1 + ttd / 2)
        (Vec3.neg (get_track s1)) Vec3.zero Vec3.zero
      let t2 := move_from_time_pos_vel_accel cornerNextLeg (ttd / 2) t1.1 t1.2.1 t1.2.2
      t2.1.length < 1 ∧
      vec2_length t2.2.1.x t2.2.1.y <
        min (get_speed_along_track s1) (get_speed_along_track cornerNextLeg) ∧
      vec2_length t2.2.2.x t2.2.2.y <
        2 * min (get_accel_along_track s1) (get_accel_along_track cornerNextLeg)) := by
    dsimp only
    rw [move_from_time_zero_delta _ _ _ _ _ hd1, move_from_time_zero_delta _ _ _ _ _ hd2]
    refine ⟨?_, ?_, ?_⟩
    · show (Vec3.neg (get_track (advance_time cornerThisLeg 1))).length < 1
      norm_num [Vec3.neg, Vec3.length, Vec3.length_squared, get_track,
        advance_time, cornerThisLeg, Vec3.zero, Real.sqrt_zero]
    · show vec2_length Vec3.zero.x Vec3.zero.y < _
      norm_num [vec2_length, Vec3.zero, Real.sqrt_zero, get_speed_along_track,
        advance_time, cornerThisLeg, cornerNextLeg]
    · show vec2_length Vec3.zero.x Vec3.zero.y < _
      norm_num [vec2_length, Vec3.zero, Real.sqrt_zero, get_accel_along_track,
        advance_time, cornerThisLeg, cornerNextLeg]
  refine ⟨hbrake, rfl, hturn, ?_, by norm_num [advance_time, cornerNextLeg]⟩
  have hres : (advance_target_along_track cornerThisLeg unbuiltLeg cornerNextLeg
      1 true 1 Vec3.zero Vec3.zero Vec3.zero).next_leg = cornerNextLeg := by
    simp only [advance_target_along_track, move_from_pos_vel_accel,
      move_to_pos_vel_accel]
    rw [if_pos ⟨trivial, hbrake, rfl, by rw [httd, hgaft]; norm_num⟩,
      if_neg ?hinner]
    case hinner =>
      intro hcon
      have h1 := hcon.1
      rw [httd, hte] at h1
      norm_num at h1
  rw [hres]
  rfl

/-- Witness for C7 at the concrete corner-cutting scenario. -/
theorem C7_corner_cut_decision_witness :
    (advance_target_along_track cornerThisLeg unbuiltLeg cornerNextLeg 1 true 1
        Vec3.zero Vec3.zero Vec3.zero).next_leg =
      (let s1 := advance_time cornerThisLeg 1
       let ttd := get_time_remaining s1
       let t1 := move_from_time_pos_vel_accel s1 (get_time_elapsed s1 + ttd / 2)
         (Vec3.neg (get_track s1)) Vec3.zero Vec3.zero
       let t2 := move_from_time_pos_vel_accel cornerNextLeg (ttd / 2) t1.1 t1.2.1 t1.2.2
       if ttd ≤ get_accel_finished_time cornerNextLeg ∧
           (get_time_remaining s1 < time_end cornerNextLeg / 2 ∧
            t2.1.length < 1 ∧
            vec2_length t2.2.1.x t2.2.1.y <
              min (get_speed_along_track s1) (get_speed_along_track cornerNextLeg) ∧
            vec2_length t2.2.2.x t2.2.2.y <
              2 * min (get_accel_along_track s1) (get_accel_along_track cornerNextLeg))
       then advance_time cornerNextLeg 1 else cornerNextLeg) :=
  C7_corner_cut_decision cornerThisLeg unbuiltLeg cornerNextLeg 1 1 Vec3.zero
    Vec3.zero Vec3.zero
    (by simp [braking, advance_time, cornerThisLeg, segments_max, SEG_CONST]
        norm_num)
    rfl

end SCurve
